import Mathlib

/-!
Verification of the cato-mcp-server tool-invocation pipeline.

This file gives a shallow embedding, in Lean 4, of the pure core of the
cato-mcp-server repository (argument normalization, downstream-response
validation, the aggregation library, the truncating serializer, and the
ranking / grouping / summarization response transforms), together with
theorems settling the specification claims about that core.

Modelling conventions:
  - JavaScript numbers are modelled as rationals (`ℚ`); `NaN` is modelled
    explicitly where the source tests for it.
  - A JavaScript value that may be `null`/`undefined` is an `Option`;
    where the source distinguishes `null` from `undefined` (argument
    normalization) a dedicated inductive (`JVal`) carries both.
  - JavaScript objects used as string-keyed maps are association lists
    whose update (`setKey`) overwrites the first matching key and appends
    otherwise, matching JS property-assignment semantics.
  - Arrays are lists; a possibly-sparse array of timeseries points is a
    list of `Option` entries, so that `a[i]` beyond the length and a hole
    at `i` are both `none`.
  - The throwing of a JS exception is an `Except.error`.
  - Presentation-only helpers (`formatBytes`, log calls) are not modelled:
    no claim mentions them and they only produce display strings.
-/

namespace CatoMcp

/-! ## JavaScript primitives -/

/-- JS `x || fb` for a possibly-missing number: `null`/`undefined` and the
falsy number `0` fall back to `fb`. -/
def jsOrNum (v : Option ℚ) (fb : ℚ) : ℚ :=
  match v with
  | none => fb
  | some x => if x = 0 then fb else x

/-- JS `x || fb` for a possibly-missing string: `null`/`undefined` and the
falsy empty string fall back to `fb`. -/
def jsOrStr (v : Option String) (fb : String) : String :=
  match v with
  | none => fb
  | some s => if s = "" then fb else s

/-- JS `x || fb` for a possibly-missing natural count (tool arguments such
as `topN`): `null`/`undefined` and `0` fall back to `fb`. -/
def jsOrNat (v : Option Nat) (fb : Nat) : Nat :=
  match v with
  | none => fb
  | some n => if n = 0 then fb else n

/-- Truthiness of a possibly-missing boolean (JS `x ? a : b`). -/
def jsTruthy (v : Option Bool) : Bool :=
  match v with
  | none => false
  | some b => b

/-! ## JSON values and string-keyed records (argument normalization) -/

/-- A JSON-ish JavaScript value as seen by the argument-normalization
stage. `undef` and `null` are distinct, as in JS. -/
inductive JVal where
  | undef
  | null
  | bool (b : Bool)
  | num (q : ℚ)
  | str (s : String)
  | arr (elems : List JVal)
  | obj (fields : List (String × JVal))

/-- A JS object used as a string-keyed map, in property-insertion order. -/
abbrev JRecord := List (String × JVal)

/-- JS property assignment `o[k] = v`: overwrite the existing key or append. -/
def setKey : JRecord → String → JVal → JRecord
  | [], k, v => [(k, v)]
  | (k0, v0) :: rest, k, v =>
    if k0 = k then (k0, v) :: rest else (k0, v0) :: setKey rest k v

/-- JS property read `o[k]`: the first binding of `k`, if any. -/
def lookupKey : JRecord → String → Option JVal
  | [], _ => none
  | (k0, v0) :: rest, k => if k0 = k then some v0 else lookupKey rest k

/-- The keys of a record, in order. -/
def recordKeys (r : JRecord) : List String := r.map Prod.fst

/-- A tool argument schema: each property name with its declared default,
if any (`propDef.default !== undefined`). -/
abbrev ArgSchema := List (String × Option JVal)

/-- Embeds `extractToolDefaultValues` (src/index.ts): walk the schema
properties in order and set every declared default on the vars map. -/
def extractToolDefaultValuesAux : JRecord → ArgSchema → JRecord
  | vars, [] => vars
  | vars, (propName, some d) :: rest =>
      extractToolDefaultValuesAux (setKey vars propName d) rest
  | vars, (_, none) :: rest => extractToolDefaultValuesAux vars rest

/-- Embeds `extractToolDefaultValues` (src/index.ts, lines 101-118). -/
def extractToolDefaultValues (schema : ArgSchema) : JRecord :=
  extractToolDefaultValuesAux [] schema

/-- Leading-whitespace removal on the character list, as performed by the
left half of JS `String.prototype.trim`. -/
def jsTrimLeft : List Char → List Char
  | [] => []
  | c :: cs => if c.isWhitespace then jsTrimLeft cs else c :: cs

/-- The test `argValue.trim().startsWith('\x7b') || argValue.trim().startsWith('[')`
from `llmProvidedVariablesOverride`: the first character after leading
whitespace is a brace or a bracket (right-trimming cannot affect the first
character, so left-trimming is an equivalent model). -/
def looksLikeJson (s : String) : Bool :=
  match jsTrimLeft s.toList with
  | [] => false
  | c :: _ => c = '\x7b' || c = '['

/-- The error thrown by `llmProvidedVariablesOverride` when JSON-parsing a
brace/bracket-prefixed string argument fails; it carries the tool name, the
argument name and the raw offending value. -/
structure ArgumentParseError where
  toolName : String
  argName : String
  rawValue : String
deriving DecidableEq

/-- One iteration of the override loop in `llmProvidedVariablesOverride`
(src/index.ts, lines 135-147): skip `undefined`/`null`, JSON-parse
brace/bracket-prefixed strings (failures abort with `ArgumentParseError`),
and set the resulting value. `JSON.parse` itself is external library code,
so it is a parameter `parseJson`; `none` models a parse that throws. -/
def overrideOneArg (parseJson : String → Option JVal) (toolName : String)
    (vars : JRecord) (argName : String) (argValue : JVal) :
    Except ArgumentParseError JRecord :=
  match argValue with
  | .undef => .ok vars
  | .null => .ok vars
  | .str s =>
      if looksLikeJson s then
        match parseJson s with
        | some v => .ok (setKey vars argName v)
        | none => .error ⟨toolName, argName, s⟩
      else .ok (setKey vars argName (.str s))
  | v => .ok (setKey vars argName v)

/-- The override loop of `llmProvidedVariablesOverride`, in argument order,
stopping at the first parse failure (a JS `throw`). -/
def applyOverrides (parseJson : String → Option JVal) (toolName : String) :
    JRecord → List (String × JVal) → Except ArgumentParseError JRecord
  | vars, [] => .ok vars
  | vars, (argName, argValue) :: rest =>
    match overrideOneArg parseJson toolName vars argName argValue with
    | .ok variables2 => applyOverrides parseJson toolName variables2 rest
    | .error e => .error e

/-- Embeds `llmProvidedVariablesOverride` (src/index.ts, lines 126-152):
copy the defaults, then overwrite with every caller argument whose value is
neither `undefined` nor `null`. -/
def llmProvidedVariablesOverride (parseJson : String → Option JVal)
    (variablesDefaultValues : JRecord) (toolName : String)
    (mcpToolRequestArguments : Option (List (String × JVal))) :
    Except ArgumentParseError JRecord :=
  match mcpToolRequestArguments with
  | none => .ok variablesDefaultValues
  | some args => applyOverrides parseJson toolName variablesDefaultValues args

/-- Embeds the normalization entry `prepareGraphqlVariables` up to the
optional per-tool input handler (src/index.ts, lines 160-170). -/
def normalize (parseJson : String → Option JVal) (schema : ArgSchema)
    (toolName : String) (callerArgs : Option (List (String × JVal))) :
    Except ArgumentParseError JRecord :=
  llmProvidedVariablesOverride parseJson (extractToolDefaultValues schema)
    toolName callerArgs

/-! ## Serializer / truncator (src/graphql/graphql.ts) -/

/-- Embeds `DEFAULT_MAX_RESPONSE_LENGTH`. -/
def DEFAULT_MAX_RESPONSE_LENGTH : Nat := 200000

/-- Embeds `MAX_RESPONSE_LENGTH_EXCEEDED_MESSAGE`, the fixed truncation
preamble. -/
def MAX_RESPONSE_LENGTH_EXCEEDED_MESSAGE : String :=
  "You should answer the user\x27s question as best as you can based on this truncated data. \nIn your final answer, you have to tell that: the answer may be partial because the data returned exceeded the context window. Here is the truncated data: "

/-- Embeds `initializeMaxResponseLength`: `parseInt` of the environment
value is modelled as `Option Int` (`none` = `NaN`); the default is restored
when the parse failed, yielded `0` (falsy) or a non-positive number. -/
def initializeMaxResponseLength (parsedEnv : Option Int) : Nat :=
  match parsedEnv with
  | none => DEFAULT_MAX_RESPONSE_LENGTH
  | some m => if m ≤ 0 then DEFAULT_MAX_RESPONSE_LENGTH else m.toNat

/-- Embeds the truncation step of `handleGraphqlResponse` (lines 102-107):
a serialized text longer than the budget is replaced by the fixed preamble
followed by its first `maxResponseLength` characters. The serialized text
is a character list so that `substring(0, n)` is `take n`. -/
def truncateSerialized (maxResponseLength : Nat) (responseText : List Char) :
    List Char :=
  if maxResponseLength < responseText.length then
    MAX_RESPONSE_LENGTH_EXCEEDED_MESSAGE.toList ++ responseText.take maxResponseLength
  else responseText

/-! ## Dates: `new Date(ms).toISOString()` -/

/-- Left-pad a natural to two digits. -/
def pad2 (n : Nat) : String := if n < 10 then "0" ++ toString n else toString n

/-- Left-pad a natural to three digits. -/
def pad3 (n : Nat) : String :=
  if n < 10 then "00" ++ toString n
  else if n < 100 then "0" ++ toString n else toString n

/-- Left-pad a natural to four digits. -/
def pad4 (n : Nat) : String :=
  if n < 10 then "000" ++ toString n
  else if n < 100 then "00" ++ toString n
  else if n < 1000 then "0" ++ toString n else toString n

/-- Proleptic-Gregorian civil date from a day count relative to 1970-01-01
(the standard era-based algorithm used by date libraries; all intermediate
divisions act on non-negative values). Returns (year, month, day). -/
def civilFromDays (z0 : Int) : Int × Int × Int :=
  let z := z0 + 719468
  let era : Int := (if 0 ≤ z then z else z - 146096) / 146097
  let doe : Int := z - era * 146097
  let yoe : Int := (doe - doe / 1460 + doe / 36524 - doe / 146096) / 365
  let y : Int := yoe + era * 400
  let doy : Int := doe - (365 * yoe + yoe / 4 - yoe / 100)
  let mp : Int := (5 * doy + 2) / 153
  let d : Int := doy - (153 * mp + 2) / 5 + 1
  let m : Int := if mp < 10 then mp + 3 else mp - 9
  (if m ≤ 2 then y + 1 else y, m, d)

/-- Models `new Date(t).toISOString()` for an epoch-milliseconds timestamp
(years 0-9999, the range relevant to bucket timestamps). -/
def toISOString (t : Int) : String :=
  let days := Int.fdiv t 86400000
  let msOfDay := (Int.fmod t 86400000).toNat
  let c := civilFromDays days
  let hh := msOfDay / 3600000
  let mm := (msOfDay % 3600000) / 60000
  let ss := (msOfDay % 60000) / 1000
  let ms := msOfDay % 1000
  pad4 c.1.toNat ++ "-" ++ pad2 c.2.1.toNat ++ "-" ++ pad2 c.2.2.toNat ++ "T" ++
    pad2 hh ++ ":" ++ pad2 mm ++ ":" ++ pad2 ss ++ "." ++ pad3 ms ++ "Z"

/-! ## Aggregation library (src/tools/account_metrics/metricsUtils.ts) -/

/-- Embeds `DEFAULT_TIMEFRAME`. -/
def DEFAULT_TIMEFRAME : String := "last.P1D"

/-- Embeds `DEFAULT_BUCKETS`. -/
def DEFAULT_BUCKETS : Nat := 24

/-- Embeds `DEFAULT_TOP_N`. -/
def DEFAULT_TOP_N : Nat := 5

/-- Embeds `FALLBACK_VALUES`, the literal fallbacks used by the grouping
key generators when data is missing or undefined. -/
structure FallbackValues where
  UNKNOWN : String
  NONE : String
  PRIMARY : String
  SECONDARY : String
  IN_OFFICE : String
  REMOTE : String

/-- The `FALLBACK_VALUES` constant. -/
def FALLBACK_VALUES : FallbackValues :=
  { UNKNOWN := "Unknown", NONE := "NONE", PRIMARY := "PRIMARY",
    SECONDARY := "SECONDARY", IN_OFFICE := "In-Office", REMOTE := "Remote" }

/-- A metric value as it reaches `aggregateValues`: JS `null`, `undefined`,
`NaN` or an actual number. -/
inductive MetricValue where
  | null
  | undef
  | nan
  | num (q : ℚ)
deriving DecidableEq

/-- The filter in `aggregateValues`:
`values.filter(v => v !== null && v !== undefined && !isNaN(v))`. -/
def validNums (values : List MetricValue) : List ℚ :=
  values.filterMap (fun v => match v with | .num q => some q | _ => none)

/-- JS `values.reduce((sum, val) => sum + val, 0)`. -/
def listSum (values : List ℚ) : ℚ := values.foldl (· + ·) 0

/-- JS `Math.min(...values)` for a non-empty list (`0` placeholder on `[]`,
which the callers guard against). -/
def listMin : List ℚ → ℚ
  | [] => 0
  | v :: vs => vs.foldl min v

/-- JS `Math.max(...values)` for a non-empty list (`0` placeholder on `[]`,
which the callers guard against). -/
def listMax : List ℚ → ℚ
  | [] => 0
  | v :: vs => vs.foldl max v

/-- JS average `values.reduce(..)/values.length`. -/
def listAvg (values : List ℚ) : ℚ := listSum values / values.length

/-- The property names of `Object.prototype` (ECMA-262, with the Annex B
accessors Node implements): `AGGREGATION_FUNCTIONS[name]` is a plain JS
property read on an object literal, so these names find truthy INHERITED
members instead of `undefined`. -/
def OBJECT_PROTOTYPE_MEMBERS : List String :=
  ["constructor", "hasOwnProperty", "isPrototypeOf", "propertyIsEnumerable",
   "toLocaleString", "toString", "valueOf", "__defineGetter__",
   "__defineSetter__", "__lookupGetter__", "__lookupSetter__", "__proto__"]

/-- What the JS property read `AGGREGATION_FUNCTIONS[aggregationFn]`
evaluates to: one of the four own aggregation functions; a member
inherited from `Object.prototype` (truthy, so the `fn ? ... : avg(...)`
fallback is NOT taken); or `undefined` for every other name. -/
inductive JsFnLookup where
  | ownSum
  | ownAvg
  | ownMax
  | ownMin
  | protoToString
  | protoConstructor
  | protoThrowing
  | undefined
deriving DecidableEq

/-- JS property lookup on the `AGGREGATION_FUNCTIONS` object literal,
prototype chain included. Of the inherited members, `toString` and
`constructor` are callable with a useful result; the remaining ones all
throw a `TypeError` when called as `fn(validValues)` with an `undefined`
`this` (`valueOf`/`hasOwnProperty`/`isPrototypeOf`/`propertyIsEnumerable`
and the `__define`/`__lookup` accessors perform `ToObject(this)`,
`toLocaleString` invokes `this.toString`, and `__proto__` reads back
`Object.prototype` itself, which is truthy but not callable). -/
def aggregationFunctionLookup (name : String) : JsFnLookup :=
  if name = "sum" then .ownSum
  else if name = "avg" then .ownAvg
  else if name = "max" then .ownMax
  else if name = "min" then .ownMin
  else if name = "toString" then .protoToString
  else if name = "constructor" then .protoConstructor
  else if name ∈ OBJECT_PROTOTYPE_MEMBERS then .protoThrowing
  else .undefined

/-- What a call to `aggregateValues` can produce once the prototype chain
is taken into account: a number; the string `"[object Undefined]"` from
`Object.prototype.toString.call(undefined)`; the input array itself from
`Object(validValues)` (the inherited `constructor`); or a thrown
`TypeError`. -/
inductive AggregateOutcome where
  | num (q : ℚ)
  | str (s : String)
  | arrayObject (values : List ℚ)
  | typeError
deriving DecidableEq

/-- Embeds `aggregateValues` (metricsUtils.ts lines 61-69): drop
null/undefined/NaN, return 0 when nothing remains (this guard runs BEFORE
the dispatch, so even prototype names return 0 on an empty remainder),
then `fn ? fn(validValues) : AGGREGATION_FUNCTIONS.avg(validValues)` with
`fn` the prototype-chain property lookup. -/
def aggregateValues (values : List MetricValue) (aggregationFn : String) :
    AggregateOutcome :=
  let validValues := validNums values
  if validValues.length = 0 then .num 0
  else
    match aggregationFunctionLookup aggregationFn with
    | .ownSum => .num (listSum validValues)
    | .ownAvg => .num (listAvg validValues)
    | .ownMax => .num (listMax validValues)
    | .ownMin => .num (listMin validValues)
    | .protoToString => .str "[object Undefined]"
    | .protoConstructor => .arrayObject validValues
    | .protoThrowing => .typeError
    | .undefined => .num (listAvg validValues)

/-- A raw timeseries data point `[timestampMillis, value]`; the value may
be `null`/`undefined`. -/
abbrev TimeseriesPoint := Int × Option ℚ

/-- The filter in `calculateSummary`:
`dataPoints.map(p => p[1]).filter(v => v !== null && v !== undefined && v >= 0)`. -/
def summaryValues (dataPoints : List TimeseriesPoint) : List ℚ :=
  dataPoints.filterMap (fun p =>
    match p.2 with
    | some v => if 0 ≤ v then some v else none
    | none => none)

/-- The `peak` component of a timeseries summary. -/
structure PeakInfo where
  value : ℚ
  timestamp : Option String
deriving DecidableEq

/-- A timeseries summary as produced by `calculateSummary`. -/
structure Summary where
  min : ℚ
  max : ℚ
  avg : ℚ
  peak : PeakInfo
deriving DecidableEq

/-- The zero summary returned for empty or fully-filtered input. -/
def zeroSummary : Summary :=
  { min := 0, max := 0, avg := 0, peak := { value := 0, timestamp := none } }

/-- Embeds `calculateSummary` (metricsUtils.ts lines 72-100). The unused
`aggregationFn` parameter is kept to mirror the source signature. The
source's `findIndex` returning `-1` (then `null` timestamp) corresponds to
`get?` returning `none` past the end. -/
def calculateSummary (dataPoints : List TimeseriesPoint)
    (aggregationFn : String) : Summary :=
  if dataPoints.isEmpty then zeroSummary
  else
    let values := summaryValues dataPoints
    if values.isEmpty then zeroSummary
    else
      let mx := listMax values
      let maxIndex := dataPoints.findIdx (fun p => decide (p.2 = some mx))
      { min := listMin values, max := mx,
        avg := listSum values / values.length,
        peak := { value := mx,
                  timestamp :=
                    (dataPoints.get? maxIndex).map (fun p => toISOString p.1) } }

/-- Embeds `calculateBytesTotal` (metricsUtils.ts lines 48-50); on actual
(rational) numbers `x || 0` is the identity. -/
def calculateBytesTotal (bytesUpstream bytesDownstream : ℚ) : ℚ :=
  bytesUpstream + bytesDownstream

/-- Embeds `calculateHostUtilization` (metricsUtils.ts lines 52-54). -/
def calculateHostUtilization (hostCount hostLimit : ℚ) : ℚ :=
  if 0 < hostLimit then (hostCount / hostLimit) * 100 else 0

/-- Embeds `calculateUpstreamDownstreamRatio` (metricsUtils.ts lines 56-58). -/
def calculateUpstreamDownstreamRatio (bytesUpstream bytesDownstream : ℚ) : ℚ :=
  if 0 < bytesDownstream then bytesUpstream / bytesDownstream else 0

/-! ## Timeseries response transform helpers (site_metrics_timeseries tool) -/

/-- A possibly-sparse raw data array: `data[i]` may be a hole or past the
end (`none`), or a point whose value may itself be `null`. -/
abbrev RawSeries := List (Option TimeseriesPoint)

/-- Embeds `aggregateTimeseriesData` (siteMetricsTimeseriesTool, lines
488-509): for every bucket index up to the longest contributor, sum the
values present at that index (missing/null contributing 0). The source
assigns `timestamp = metric.data[i][0]` inside `metrics.forEach`, so the
timestamp recorded is the one of the LAST contributor that has a point at
the index, although the source comment says first. JS `Math.max()` of no
arguments is `-Infinity`, producing an empty loop exactly like `0` here. -/
def aggregateTimeseriesData (metrics : List RawSeries) : List (Int × ℚ) :=
  let maxBuckets := metrics.foldl (fun acc m => Nat.max acc m.length) 0
  (List.range maxBuckets).filterMap (fun i =>
    let step := metrics.foldl
      (fun (st : Option Int × ℚ) m =>
        match m.getD i none with
        | some p => (some p.1, st.2 + p.2.getD 0)
        | none => st)
      (none, 0)
    match step.1 with
    | some t => some (t, step.2)
    | none => none)

/-- Lifts an aggregated (hole-free, non-null) series back to the raw point
shape consumed by `calculateSummary`. -/
def liftPoints (l : List (Int × ℚ)) : List TimeseriesPoint :=
  l.map (fun p => (p.1, some p.2))

/-- A named timeseries block `{label, units, sum, summary, buckets, data}`
as built by the timeseries tool. -/
structure SeriesBlock where
  label : String
  units : String
  sum : Option ℚ
  summary : Summary
  buckets : Nat
  data : List (Int × ℚ)
deriving DecidableEq

/-- The per-bucket body of `calculateHostUtilizationTimeseries` (lines
427-435): both points must be present; the count falls back to 0 and the
limit to 1 through JS `||`. -/
def hostUtilizationBucket (hostCountData hostLimitData : RawSeries)
    (i : Nat) : Option (Int × ℚ) :=
  match hostCountData.getD i none, hostLimitData.getD i none with
  | some cp, some lp =>
    some (cp.1, calculateHostUtilization (jsOrNum cp.2 0) (jsOrNum lp.2 1))
  | _, _ => none

/-- The `utilizationData` array of `calculateHostUtilizationTimeseries`:
bucket-aligned over `min` of the lengths, skipping absent points. -/
def hostUtilizationData (hostCountData hostLimitData : RawSeries) :
    List (Int × ℚ) :=
  (List.range (Nat.min hostCountData.length hostLimitData.length)).filterMap
    (hostUtilizationBucket hostCountData hostLimitData)

/-- A second, spec-side definition for refinement comparison: the
specification words the derived utilization bucket as
`100 * numerator[i] / max(limit[i], 1)`. -/
def specUtilizationPerBucket (numerator limit : ℚ) : ℚ :=
  100 * numerator / max limit 1

/-- Embeds `calculateHostUtilizationTimeseries` (siteMetricsTimeseriesTool,
lines 423-449); returns `none` (JS `null`) when no bucket survives. -/
def calculateHostUtilizationTimeseries (hostCountData hostLimitData : RawSeries)
    (aggregationFn : String) : Option SeriesBlock :=
  let utilizationData := hostUtilizationData hostCountData hostLimitData
  if 0 < utilizationData.length then
    some { label := "hostUtilizationPct", units := "percent", sum := none,
           summary := calculateSummary (liftPoints utilizationData) aggregationFn,
           buckets := utilizationData.length, data := utilizationData }
  else none

/-! ## Entities of the metric responses -/

/-- The `metrics` object of a site or user entry in a bandwidth-ranking
response. -/
structure EntityMetrics where
  bytesUpstream : Option ℚ
  bytesDownstream : Option ℚ
  duration : Option ℚ := none
deriving DecidableEq

/-- A site or user entry of `accountMetrics.sites` / `accountMetrics.users`
as consumed by the Top-N ranking tools: `id`, a direct `name`, an optional
`info.name`, and the byte-pair metrics. -/
structure ConsumerEntity where
  id : String
  name : Option String
  infoName : Option String
  metrics : Option EntityMetrics
deriving DecidableEq

/-- The `accountMetrics` payload of a metrics reply, restricted to the
fields the ranking tools touch. -/
structure AccountMetrics where
  fromTs : Option String
  toTs : Option String
  sites : Option (List ConsumerEntity)
  users : Option (List ConsumerEntity)
deriving DecidableEq

/-! ## Downstream envelope and its validation (src/graphql/graphql.ts) -/

/-- The parsed body of a downstream GraphQL reply: an optional `data`
object (each top-level field nullable, here carrying the `accountMetrics`
payload when non-null) and an optional `errors` array, reduced to its
message strings. -/
structure GqlResult where
  data : Option (List (String × Option AccountMetrics))
  errors : Option (List String)
deriving DecidableEq

/-- How `validateGraphqlResponseBody` can throw: the constructed
`GraphQL errors: ...` error, or the JS `TypeError` raised by
`result.errors.map` when `errors` is absent. -/
inductive ValidationFailure where
  | upstream (msg : String)
  | typeError
deriving DecidableEq

/-- The unusability test of `validateGraphqlResponseBody` (graphql.ts line
118): `!result.data || result.data.length === 0 ||
Object.values(result.data).every(v => v === null)`. For an object-valued
`data`, `.length` is `undefined`, so the middle disjunct never fires; an
empty object is caught by the vacuous `every`. -/
def unusableData (r : GqlResult) : Bool :=
  match r.data with
  | none => true
  | some fields => fields.all (fun f => f.2 = none)

/-- Embeds `validateGraphqlResponseBody` (graphql.ts lines 110-123). When
the data is unusable the source reads `result.errors.map(e => e.message)`,
which throws a `TypeError` if no `errors` array is present. -/
def validateGraphqlResponseBody (result : GqlResult) :
    Except ValidationFailure Unit :=
  if unusableData result then
    match result.errors with
    | none => .error .typeError
    | some es =>
      .error (.upstream ("GraphQL errors: " ++ String.intercalate ", " es))
  else .ok ()

/-- JS `response.data?.accountMetrics`: the `accountMetrics` field of
`data`, flattening the two layers of nullability. -/
def accountMetricsOf (r : GqlResult) : Option AccountMetrics :=
  match r.data with
  | none => none
  | some fields =>
    match fields.lookup "accountMetrics" with
    | some (some am) => some am
    | _ => none

/-- Embeds `isValidMetricResponse` (account_metrics/metricsUtils.ts lines
163-171): truthiness of `response.data?.accountMetrics?.sites`; note an
empty array is truthy in JS, so `sites: []` is valid. -/
def isValidMetricResponse (_accountId : String) (response : GqlResult) : Bool :=
  match accountMetricsOf response with
  | some am => am.sites.isSome
  | none => false

/-- Modelled from the spec: `isValidSiteMetricResponse` lives in
`src/utils/metricsUtils.ts`, which is not among the sources (only its
importers are). Per the spec, a response transform treats the reply as a
soft miss exactly when the expected top-level `sites` collection is absent,
so the check is the presence (truthiness) of
`response.data?.accountMetrics?.sites`. -/
def isValidSiteMetricResponse (_accountId : String) (response : GqlResult) :
    Bool :=
  match accountMetricsOf response with
  | some am => am.sites.isSome
  | none => false

/-- Modelled from the spec: `isValidUserMetricResponse` lives in
`src/utils/metricsUtils.ts`, which is not among the sources. Per the spec,
the user-domain transforms treat the reply as a soft miss exactly when the
expected top-level `users` collection is absent, so the check is the
presence (truthiness) of `response.data?.accountMetrics?.users`. -/
def isValidUserMetricResponse (_accountId : String) (response : GqlResult) :
    Bool :=
  match accountMetricsOf response with
  | some am => am.users.isSome
  | none => false

/-! ## Top-N ranking transforms -/

/-- A ranked consumer entry `{id, name, totalBytes, ...}`; the
`formatBytes` display strings (`totalUsage`, `breakdown`) are presentation
only and not modelled. -/
structure RankedConsumer where
  id : String
  name : Option String
  totalBytes : ℚ
deriving DecidableEq

/-- The map step of the site-ranking tools:
`totalBytes = calculateBytesTotal(metrics?.bytesUpstream || 0,
metrics?.bytesDownstream || 0)`, `name = info?.name || name`. -/
def rankSiteConsumer (consumer : ConsumerEntity) : RankedConsumer :=
  { id := consumer.id,
    name :=
      match consumer.infoName with
      | some s => if s = "" then consumer.name else some s
      | none => consumer.name,
    totalBytes :=
      calculateBytesTotal
        (jsOrNum (consumer.metrics.bind (·.bytesUpstream)) 0)
        (jsOrNum (consumer.metrics.bind (·.bytesDownstream)) 0) }

/-- The map step of the users-ranking tool (`name = consumer.name`). -/
def rankUserConsumer (consumer : ConsumerEntity) : RankedConsumer :=
  { id := consumer.id,
    name := consumer.name,
    totalBytes :=
      calculateBytesTotal
        (jsOrNum (consumer.metrics.bind (·.bytesUpstream)) 0)
        (jsOrNum (consumer.metrics.bind (·.bytesDownstream)) 0) }

/-- Stable insertion of a ranked consumer into a descending-by-total list:
an element moves ahead only of strictly smaller totals, so equal totals
keep their original relative order. -/
def insertByTotalDesc (x : RankedConsumer) :
    List RankedConsumer → List RankedConsumer
  | [] => [x]
  | y :: ys =>
    if y.totalBytes < x.totalBytes then x :: y :: ys
    else y :: insertByTotalDesc x ys

/-- Models `.sort((a, b) => b.totalBytes - a.totalBytes)`:
`Array.prototype.sort` is stable (ECMA-262), and a stable descending sort
is uniquely determined, so it is embedded as stable insertion sort. -/
def sortByTotalDesc (l : List RankedConsumer) : List RankedConsumer :=
  l.foldl (fun acc x => insertByTotalDesc x acc) []

/-- The final result of a ranking tool: either the canonical
`emptyMetricsResponse` shape `\x7bdata: \x7btimeFrame, sites: []\x7d\x7d`,
or the ranked shape with its `timeFrame` echo, `summary` fields and the
`topConsumers` collection. -/
inductive TopFinal where
  | empty (fromTs toTs : Option String)
  | ranked (fromTs toTs : Option String) (consumerType : String)
      (showingTop : Nat) (topConsumers : List RankedConsumer)
deriving DecidableEq

/-- Embeds `emptyMetricsResponse` (account_metrics/metricsUtils.ts lines
173-183): a timeframe echo (`accountMetrics?.from` / `?.to`) plus an empty
`sites` collection. -/
def emptyMetricsResponse (accountMetrics : Option AccountMetrics) : TopFinal :=
  .empty (accountMetrics.bind (·.fromTs)) (accountMetrics.bind (·.toTs))

/-- Embeds `handleResponse` of `topSiteBandwidthConsumersTool.ts` (lines
89-133): soft miss on an invalid reply or a missing consumers collection,
otherwise map → stable descending sort → `slice(0, topN)`. Zero-total
sites are NOT excluded. -/
def topSiteHandleResponse (topN? : Option Nat) (accountID : String)
    (response : GqlResult) : TopFinal :=
  if ¬ isValidSiteMetricResponse accountID response then
    emptyMetricsResponse (accountMetricsOf response)
  else
    match accountMetricsOf response with
    | none => emptyMetricsResponse none
    | some accountMetrics =>
      match accountMetrics.sites with
      | none => emptyMetricsResponse (some accountMetrics)
      | some consumers =>
        let topN := jsOrNat topN? DEFAULT_TOP_N
        let rankedConsumers :=
          (sortByTotalDesc (consumers.map rankSiteConsumer)).take topN
        .ranked accountMetrics.fromTs accountMetrics.toTs "sites"
          rankedConsumers.length rankedConsumers

/-- Embeds `handleResponse` of `topUsersBandwidthConsumersTool.ts` (lines
97-144): like the site variant but on `users`, and with
`.filter(c => c.totalBytes > 0)` BEFORE sorting — zero-total users are
excluded by declared policy. -/
def topUsersHandleResponse (topN? : Option Nat) (accountID : String)
    (response : GqlResult) : TopFinal :=
  if ¬ isValidUserMetricResponse accountID response then
    emptyMetricsResponse (accountMetricsOf response)
  else
    match accountMetricsOf response with
    | none => emptyMetricsResponse none
    | some accountMetrics =>
      match accountMetrics.users with
      | none => emptyMetricsResponse (some accountMetrics)
      | some consumers =>
        let topN := jsOrNat topN? DEFAULT_TOP_N
        let rankedConsumers :=
          (sortByTotalDesc
            ((consumers.map rankUserConsumer).filter
              (fun c => 0 < c.totalBytes))).take topN
        .ranked accountMetrics.fromTs accountMetrics.toTs "users"
          rankedConsumers.length rankedConsumers

/-- Embeds `handleResponse` of the combined `top_bandwidth_consumers` tool
(topBandwidthConsumersTool, lines 108-152): dispatch on
`consumerType || 'sites'`, no zero-total exclusion. -/
def topBandwidthHandleResponse (consumerType? : Option String)
    (topN? : Option Nat) (accountID : String) (response : GqlResult) :
    TopFinal :=
  if ¬ isValidMetricResponse accountID response then
    emptyMetricsResponse (accountMetricsOf response)
  else
    match accountMetricsOf response with
    | none => emptyMetricsResponse none
    | some accountMetrics =>
      let consumerType := jsOrStr consumerType? "sites"
      let consumers? :=
        if consumerType = "sites" then accountMetrics.sites
        else accountMetrics.users
      match consumers? with
      | none => emptyMetricsResponse (some accountMetrics)
      | some consumers =>
        let topN := jsOrNat topN? DEFAULT_TOP_N
        let rankedConsumers :=
          (sortByTotalDesc (consumers.map rankSiteConsumer)).take topN
        .ranked accountMetrics.fromTs accountMetrics.toTs consumerType
          rankedConsumers.length rankedConsumers

/-- A declared integer input-schema constraint. -/
structure IntConstraint where
  default : Nat
  minimum : Nat
  maximum : Nat
deriving DecidableEq

/-- The `topN` constraint declared identically by the ranking tools'
input schemas (`default: DEFAULT_TOP_N, minimum: 1, maximum: 50`). -/
def topNSchemaConstraint : IntConstraint :=
  { default := DEFAULT_TOP_N, minimum := 1, maximum := 50 }

/-! ## Grouping key generators (metrics_site_summary tool) -/

/-- The `info` object of a site in the site-summary response. -/
structure SiteInfo where
  name : Option String
  type : Option String
  connType : Option String
  region : Option String
deriving DecidableEq

/-- A site as consumed by the grouping key generators. -/
structure SiteEntry where
  id : String
  info : Option SiteInfo
deriving DecidableEq

/-- The `interfaceInfo` object of an interface. -/
structure InterfaceInfo where
  wanRole : Option String
deriving DecidableEq

/-- The `socketInfo` object of an interface. -/
structure SocketInfo where
  isPrimary : Option Bool
deriving DecidableEq

/-- An interface as consumed by the grouping key generators. -/
structure InterfaceEntry where
  name : Option String
  interfaceInfo : Option InterfaceInfo
  socketInfo : Option SocketInfo
deriving DecidableEq

/-- The `info` object of a user in the user-grouping responses. -/
structure UserInfo where
  name : Option String
  osType : Option String
  version : Option String
  popName : Option String
  connectivityStatus : Option String
  connectedInOffice : Option Bool
deriving DecidableEq

/-- A user as consumed by the grouping key generators. -/
structure UserEntry where
  id : String
  name : Option String
  info : Option UserInfo
deriving DecidableEq

/-- `GROUP_KEY_GENERATORS.site`: the template string
`` `${site.info?.name || site.id}` ``. -/
def groupKeySite (site : SiteEntry) : String :=
  jsOrStr (site.info.bind (·.name)) site.id

/-- `GROUP_KEY_GENERATORS.siteType`: `site.info?.type || 'Unknown'`. -/
def groupKeySiteType (site : SiteEntry) : String :=
  jsOrStr (site.info.bind (·.type)) FALLBACK_VALUES.UNKNOWN

/-- `GROUP_KEY_GENERATORS.connType`: `site.info?.connType || 'Unknown'`. -/
def groupKeyConnType (site : SiteEntry) : String :=
  jsOrStr (site.info.bind (·.connType)) FALLBACK_VALUES.UNKNOWN

/-- `GROUP_KEY_GENERATORS.region`: `site.info?.region || 'Unknown'`. -/
def groupKeyRegion (site : SiteEntry) : String :=
  jsOrStr (site.info.bind (·.region)) FALLBACK_VALUES.UNKNOWN

/-- `GROUP_KEY_GENERATORS.interfaceRole`:
`intf.interfaceInfo?.wanRole || 'NONE'`. -/
def groupKeyInterfaceRole (intf : InterfaceEntry) : String :=
  jsOrStr (intf.interfaceInfo.bind (·.wanRole)) FALLBACK_VALUES.NONE

/-- `GROUP_KEY_GENERATORS.interfaceName`: `intf.name || 'Unknown'`. -/
def groupKeyInterfaceName (intf : InterfaceEntry) : String :=
  jsOrStr intf.name FALLBACK_VALUES.UNKNOWN

/-- `GROUP_KEY_GENERATORS.socketHA`:
`intf.socketInfo?.isPrimary ? 'PRIMARY' : 'SECONDARY'`. -/
def groupKeySocketHA (intf : InterfaceEntry) : String :=
  if jsTruthy (intf.socketInfo.bind (·.isPrimary)) then FALLBACK_VALUES.PRIMARY
  else FALLBACK_VALUES.SECONDARY

/-- `GROUP_KEY_GENERATORS.user`:
`` `${user.info?.name || user.name || user.id}` ``. -/
def groupKeyUser (user : UserEntry) : String :=
  jsOrStr (user.info.bind (·.name)) (jsOrStr user.name user.id)

/-- `GROUP_KEY_GENERATORS.osType`: `user.info?.osType || 'Unknown'`. -/
def groupKeyOsType (user : UserEntry) : String :=
  jsOrStr (user.info.bind (·.osType)) FALLBACK_VALUES.UNKNOWN

/-- `GROUP_KEY_GENERATORS.clientVersion`: `user.info?.version || 'Unknown'`. -/
def groupKeyClientVersion (user : UserEntry) : String :=
  jsOrStr (user.info.bind (·.version)) FALLBACK_VALUES.UNKNOWN

/-- `GROUP_KEY_GENERATORS.popName`: `user.info?.popName || 'Unknown'`. -/
def groupKeyPopName (user : UserEntry) : String :=
  jsOrStr (user.info.bind (·.popName)) FALLBACK_VALUES.UNKNOWN

/-- `GROUP_KEY_GENERATORS.connectionStatus`:
`user.info?.connectivityStatus || 'Unknown'`. -/
def groupKeyConnectionStatus (user : UserEntry) : String :=
  jsOrStr (user.info.bind (·.connectivityStatus)) FALLBACK_VALUES.UNKNOWN

/-- `GROUP_KEY_GENERATORS.inOffice`:
`user.info?.connectedInOffice ? 'In-Office' : 'Remote'`. -/
def groupKeyInOffice (user : UserEntry) : String :=
  if jsTruthy (user.info.bind (·.connectedInOffice)) then
    FALLBACK_VALUES.IN_OFFICE
  else FALLBACK_VALUES.REMOTE

/-- The site-level generator dispatch of `addSiteToPropertyGroup`
(metricsSiteSummaryTool lines 265-281): `generator ? generator(site) :
'Unknown'` for the site-shaped dimensions. -/
def siteGroupKeyFor (groupBy : String) (site : SiteEntry) : String :=
  if groupBy = "site" then groupKeySite site
  else if groupBy = "siteType" then groupKeySiteType site
  else if groupBy = "connType" then groupKeyConnType site
  else if groupBy = "region" then groupKeyRegion site
  else "Unknown"

/-- The interface-level generator dispatch of `addInterfacesToGroups`
(metricsSiteSummaryTool lines 238-263): `generator ? generator(intf) :
'Unknown'` for the interface-shaped dimensions. -/
def interfaceGroupKeyFor (groupBy : String) (intf : InterfaceEntry) : String :=
  if groupBy = "interfaceRole" then groupKeyInterfaceRole intf
  else if groupBy = "interfaceName" then groupKeyInterfaceName intf
  else if groupBy = "socketHA" then groupKeySocketHA intf
  else "Unknown"

/-! ## Helper lemmas -/

/-- Refiltering an already-filtered value list changes nothing. -/
theorem validNums_map_num (l : List ℚ) :
    validNums (l.map MetricValue.num) = l := by
  induction l with
  | nil => rfl
  | cons x xs ih => simp [validNums, List.filterMap_cons] at ih ⊢; exact ih

/-- The JS spread-minimum of a non-empty list is one of its elements. -/
theorem listMin_mem (v : ℚ) (vs : List ℚ) : listMin (v :: vs) ∈ v :: vs :=
  List.min?_mem (fun _ _ => min_choice _ _) (rfl : (v :: vs).min? = _)

/-- The JS spread-minimum of a non-empty list bounds every element below. -/
theorem listMin_le (v : ℚ) (vs : List ℚ) :
    ∀ w ∈ v :: vs, listMin (v :: vs) ≤ w := by
  intro w hw
  exact (@List.le_min?_iff ℚ (listMin (v :: vs)) _ _
    (fun _ _ _ => le_min_iff) (v :: vs) rfl (listMin (v :: vs))).mp
    le_rfl w hw

/-- The JS spread-maximum of a non-empty list is one of its elements. -/
theorem listMax_mem (v : ℚ) (vs : List ℚ) : listMax (v :: vs) ∈ v :: vs :=
  List.max?_mem (fun _ _ => max_choice _ _) (rfl : (v :: vs).max? = _)

/-- The JS spread-maximum of a non-empty list bounds every element above. -/
theorem le_listMax (v : ℚ) (vs : List ℚ) :
    ∀ w ∈ v :: vs, w ≤ listMax (v :: vs) := by
  intro w hw
  exact (@List.max?_le_iff ℚ (listMax (v :: vs)) _ _
    (fun _ _ _ => max_le_iff) (v :: vs) rfl (listMax (v :: vs))).mp
    le_rfl w hw

/-- A value surviving the summary filter comes from a point whose value it
is (and is non-negative). -/
theorem summaryValues_mem (dataPoints : List TimeseriesPoint) (v : ℚ)
    (hv : v ∈ summaryValues dataPoints) :
    ∃ pt ∈ dataPoints, pt.2 = some v ∧ 0 ≤ v := by
  rw [summaryValues, List.mem_filterMap] at hv
  obtain ⟨pt, hpt, hf⟩ := hv
  rcases hpt2 : pt.2 with _ | w
  · rw [hpt2] at hf
    simp at hf
  · rw [hpt2] at hf
    by_cases h0 : (0 : ℚ) ≤ w
    · simp [h0] at hf
      exact ⟨pt, hpt, by rw [hpt2, hf], hf ▸ h0⟩
    · simp [h0] at hf

/-- Membership through stable insertion. -/
theorem mem_insertByTotalDesc (x a : RankedConsumer) (l : List RankedConsumer) :
    a ∈ insertByTotalDesc x l ↔ a = x ∨ a ∈ l := by
  induction l with
  | nil => simp [insertByTotalDesc]
  | cons y ys ih =>
    rw [insertByTotalDesc]
    by_cases h : y.totalBytes < x.totalBytes
    · simp [h]
    · simp only [if_neg h, List.mem_cons, ih]
      tauto

/-- Stable insertion preserves the descending-by-total invariant. -/
theorem pairwise_insertByTotalDesc (x : RankedConsumer)
    (l : List RankedConsumer)
    (hl : l.Pairwise (fun a b => b.totalBytes ≤ a.totalBytes)) :
    (insertByTotalDesc x l).Pairwise
      (fun a b => b.totalBytes ≤ a.totalBytes) := by
  induction l with
  | nil => simp [insertByTotalDesc]
  | cons y ys ih =>
    rw [insertByTotalDesc]
    rcases List.pairwise_cons.mp hl with ⟨hy, hys⟩
    by_cases h : y.totalBytes < x.totalBytes
    · rw [if_pos h]
      refine List.pairwise_cons.mpr ⟨?_, hl⟩
      intro z hz
      rcases List.mem_cons.mp hz with rfl | hz
      · exact le_of_lt h
      · exact le_trans (hy z hz) (le_of_lt h)
    · rw [if_neg h]
      refine List.pairwise_cons.mpr ⟨?_, ih hys⟩
      intro z hz
      rcases (mem_insertByTotalDesc x z ys).mp hz with rfl | hz
      · exact le_of_not_lt h
      · exact hy z hz

/-- The embedded stable sort produces a descending-by-total list. -/
theorem pairwise_sortByTotalDesc (l : List RankedConsumer) :
    (sortByTotalDesc l).Pairwise (fun a b => b.totalBytes ≤ a.totalBytes) := by
  rw [sortByTotalDesc]
  suffices h : ∀ acc : List RankedConsumer,
      acc.Pairwise (fun a b => b.totalBytes ≤ a.totalBytes) →
      (l.foldl (fun acc x => insertByTotalDesc x acc) acc).Pairwise
        (fun a b => b.totalBytes ≤ a.totalBytes) from h [] (by simp)
  induction l with
  | nil => intro acc hacc; simpa using hacc
  | cons x xs ih =>
    intro acc hacc
    exact ih _ (pairwise_insertByTotalDesc x acc hacc)

/-- The embedded stable sort neither adds nor loses entries. -/
theorem mem_sortByTotalDesc (a : RankedConsumer) (l : List RankedConsumer) :
    a ∈ sortByTotalDesc l ↔ a ∈ l := by
  rw [sortByTotalDesc]
  suffices h : ∀ acc : List RankedConsumer,
      a ∈ l.foldl (fun acc x => insertByTotalDesc x acc) acc ↔
        a ∈ acc ∨ a ∈ l by
    rw [h []]
    simp
  induction l with
  | nil => intro acc; simp
  | cons x xs ih =>
    intro acc
    rw [List.foldl_cons, ih (insertByTotalDesc x acc),
      mem_insertByTotalDesc]
    simp only [List.mem_cons]
    tauto

/-- Sortedness, length bound and membership for a take-after-sort ranking. -/
theorem rankedList_props (l : List RankedConsumer) (topN : Nat) :
    ((sortByTotalDesc l).take topN).Pairwise
      (fun a b => b.totalBytes ≤ a.totalBytes) ∧
    ((sortByTotalDesc l).take topN).length ≤ topN ∧
    ∀ c ∈ (sortByTotalDesc l).take topN, c ∈ l := by
  refine ⟨(pairwise_sortByTotalDesc l).sublist (List.take_sublist _ _), ?_, ?_⟩
  · rw [List.length_take]
    exact Nat.min_le_left _ _
  · intro c hc
    exact (mem_sortByTotalDesc c l).mp (List.take_subset _ _ hc)

/-- Reading back through a JS property assignment. -/
theorem lookupKey_setKey (vars : JRecord) (k k2 : String) (v : JVal) :
    lookupKey (setKey vars k v) k2 =
      if k = k2 then some v else lookupKey vars k2 := by
  induction vars with
  | nil => simp [setKey, lookupKey]
  | cons hd rest ih =>
    obtain ⟨k0, v0⟩ := hd
    rw [setKey]
    by_cases h0 : k0 = k
    · subst h0
      by_cases h2 : k0 = k2 <;> simp [lookupKey, h2]
    · rw [if_neg h0]
      by_cases h2 : k0 = k2
      · subst h2
        have hkk : ¬ k = k0 := fun hh => h0 hh.symm
        simp [lookupKey, hkk]
      · simp [lookupKey, h2, ih]

/-- Assigning a fresh key appends it to the key list. -/
theorem recordKeys_setKey_of_not_mem (vars : JRecord) (k : String) (v : JVal)
    (h : k ∉ recordKeys vars) :
    recordKeys (setKey vars k v) = recordKeys vars ++ [k] := by
  induction vars with
  | nil => simp [setKey, recordKeys]
  | cons hd rest ih =>
    obtain ⟨k0, v0⟩ := hd
    rw [recordKeys, List.map_cons] at h
    simp only [List.mem_cons, not_or] at h
    rw [setKey, if_neg (fun hh => h.1 hh.symm)]
    simp only [recordKeys, List.map_cons, List.cons_append, List.cons.injEq,
      true_and]
    exact ih h.2

/-- The default-extraction loop appends exactly the names that declare a
default, provided the schema names are distinct and fresh. -/
theorem recordKeys_extractAux (schema : ArgSchema) :
    ∀ vars : JRecord, (schema.map Prod.fst).Nodup →
    (∀ n ∈ schema.map Prod.fst, n ∉ recordKeys vars) →
    recordKeys (extractToolDefaultValuesAux vars schema) =
      recordKeys vars ++ (schema.filter (fun p => p.2.isSome)).map Prod.fst := by
  induction schema with
  | nil => intro vars _ _; simp [extractToolDefaultValuesAux]
  | cons hd rest ih =>
    intro vars hnd hfresh
    obtain ⟨name, d⟩ := hd
    rw [List.map_cons, List.nodup_cons] at hnd
    rcases d with _ | d0
    · rw [extractToolDefaultValuesAux]
      rw [ih vars hnd.2 (fun n hn => hfresh n (by simp [hn]))]
      simp [List.filter_cons]
    · rw [extractToolDefaultValuesAux]
      have hname : name ∉ recordKeys vars := hfresh name (by simp)
      have hkeys := recordKeys_setKey_of_not_mem vars name d0 hname
      rw [ih (setKey vars name d0) hnd.2 ?_]
      · rw [hkeys, List.filter_cons]
        simp
      · intro n hn
        rw [hkeys]
        simp only [List.mem_append, List.mem_singleton, not_or]
        exact ⟨hfresh n (by simp [hn]), fun hh => hnd.1 (hh ▸ hn)⟩

/-- For a schema with distinct property names, the extracted defaults have
exactly the keys that declare a default, in order. -/
theorem recordKeys_extractToolDefaultValues (schema : ArgSchema)
    (hnd : (schema.map Prod.fst).Nodup) :
    recordKeys (extractToolDefaultValues schema) =
      (schema.filter (fun p => p.2.isSome)).map Prod.fst := by
  rw [extractToolDefaultValues,
    recordKeys_extractAux schema [] hnd (by simp [recordKeys])]
  rfl

/-- An override step can only fail on a JSON-looking string whose parse
throws, and the error then carries the tool name, the argument name and
the raw value. -/
theorem overrideOneArg_error_char (parseJson : String → Option JVal)
    (toolName : String) (vars : JRecord) (k : String) (v : JVal)
    (e : ArgumentParseError)
    (h : overrideOneArg parseJson toolName vars k v = .error e) :
    e.toolName = toolName ∧ e.argName = k ∧ v = JVal.str e.rawValue ∧
      looksLikeJson e.rawValue = true ∧ parseJson e.rawValue = none := by
  cases v with
  | str s =>
    rw [overrideOneArg] at h
    by_cases hj : looksLikeJson s
    · rw [if_pos hj] at h
      rcases hp : parseJson s with _ | v0
      · rw [hp] at h
        obtain rfl := (Except.error.inj h).symm
        exact ⟨rfl, rfl, rfl, hj, hp⟩
      · rw [hp] at h
        exact Except.noConfusion h
    · rw [if_neg hj] at h
      exact Except.noConfusion h
  | undef => exact Except.noConfusion h
  | null => exact Except.noConfusion h
  | bool b => exact Except.noConfusion h
  | num q => exact Except.noConfusion h
  | arr elems => exact Except.noConfusion h
  | obj fields => exact Except.noConfusion h

/-- A successful override step changes no key other than its own. -/
theorem overrideOneArg_ok_lookup (parseJson : String → Option JVal)
    (toolName : String) (vars vars2 : JRecord) (k : String) (v : JVal)
    (h : overrideOneArg parseJson toolName vars k v = .ok vars2) :
    ∀ k2, k ≠ k2 → lookupKey vars2 k2 = lookupKey vars k2 := by
  intro k2 hk2
  cases v with
  | str s =>
    rw [overrideOneArg] at h
    by_cases hj : looksLikeJson s
    · rw [if_pos hj] at h
      rcases hp : parseJson s with _ | v0
      · rw [hp] at h
        exact Except.noConfusion h
      · rw [hp] at h
        obtain rfl := (Except.ok.inj h).symm
        rw [lookupKey_setKey, if_neg hk2]
    · rw [if_neg hj] at h
      obtain rfl := (Except.ok.inj h).symm
      rw [lookupKey_setKey, if_neg hk2]
  | undef => exact (Except.ok.inj h) ▸ rfl
  | null => exact (Except.ok.inj h) ▸ rfl
  | bool b =>
    obtain rfl := (Except.ok.inj h).symm
    rw [lookupKey_setKey, if_neg hk2]
  | num q =>
    obtain rfl := (Except.ok.inj h).symm
    rw [lookupKey_setKey, if_neg hk2]
  | arr elems =>
    obtain rfl := (Except.ok.inj h).symm
    rw [lookupKey_setKey, if_neg hk2]
  | obj fields =>
    obtain rfl := (Except.ok.inj h).symm
    rw [lookupKey_setKey, if_neg hk2]

/-- The override loop leaves keys absent from the caller payload alone. -/
theorem applyOverrides_ok_lookup_not_mem (parseJson : String → Option JVal)
    (toolName : String) (args : List (String × JVal)) :
    ∀ vars r : JRecord,
    applyOverrides parseJson toolName vars args = .ok r →
    ∀ k, k ∉ args.map Prod.fst → lookupKey r k = lookupKey vars k := by
  induction args with
  | nil =>
    intro vars r h k _
    rw [applyOverrides] at h
    rw [(Except.ok.inj h).symm]
  | cons hd rest ih =>
    intro vars r h k hk
    obtain ⟨k0, v0⟩ := hd
    rw [List.map_cons, List.mem_cons, not_or] at hk
    rw [applyOverrides] at h
    rcases h0 : overrideOneArg parseJson toolName vars k0 v0 with e | vars2
    · rw [h0] at h
      exact Except.noConfusion h
    · rw [h0] at h
      rw [ih vars2 r h k hk.2,
        overrideOneArg_ok_lookup parseJson toolName vars vars2 k0 v0 h0 k
          (fun hh => hk.1 hh.symm)]

/-- Any error escaping the override loop is an `ArgumentParseError` for one
of the caller's JSON-looking string arguments whose parse throws. -/
theorem applyOverrides_error_char (parseJson : String → Option JVal)
    (toolName : String) (args : List (String × JVal)) :
    ∀ vars : JRecord, ∀ e : ArgumentParseError,
    applyOverrides parseJson toolName vars args = .error e →
    e.toolName = toolName ∧ (e.argName, JVal.str e.rawValue) ∈ args ∧
      looksLikeJson e.rawValue = true ∧ parseJson e.rawValue = none := by
  induction args with
  | nil =>
    intro vars e h
    exact Except.noConfusion h
  | cons hd rest ih =>
    intro vars e h
    obtain ⟨k0, v0⟩ := hd
    rw [applyOverrides] at h
    rcases h0 : overrideOneArg parseJson toolName vars k0 v0 with e0 | vars2
    · rw [h0] at h
      obtain rfl : e0 = e := Except.error.inj h
      obtain ⟨h1, h2, h3, h4, h5⟩ :=
        overrideOneArg_error_char parseJson toolName vars k0 v0 e0 h0
      exact ⟨h1, by rw [← h2, ← h3]; exact List.mem_cons_self _ _, h4, h5⟩
    · rw [h0] at h
      obtain ⟨h1, h2, h3, h4⟩ := ih vars2 e h
      exact ⟨h1, List.mem_cons_of_mem _ h2, h3, h4⟩

/-- A JSON-looking string argument whose parse throws makes the override
loop fail. -/
theorem applyOverrides_fail (parseJson : String → Option JVal)
    (toolName : String) (args : List (String × JVal)) (k s : String)
    (hmem : (k, JVal.str s) ∈ args) (hj : looksLikeJson s = true)
    (hp : parseJson s = none) :
    ∀ vars : JRecord, ∃ e,
      applyOverrides parseJson toolName vars args = .error e := by
  induction args with
  | nil => exact absurd hmem (List.not_mem_nil _)
  | cons hd rest ih =>
    intro vars
    obtain ⟨k0, v0⟩ := hd
    rw [applyOverrides]
    rcases h0 : overrideOneArg parseJson toolName vars k0 v0 with e0 | vars2
    · exact ⟨e0, rfl⟩
    · rcases List.mem_cons.mp hmem with heq | hmem2
      · injection heq.symm with hk0 hv0
        subst hk0
        subst hv0
        exfalso
        rw [overrideOneArg, if_pos hj, hp] at h0
        exact Except.noConfusion h0
      · exact ih hmem2 vars2

/-- On success, every JSON-looking string argument has been stored as its
parsed value (caller keys assumed distinct, as JS object keys are). -/
theorem applyOverrides_ok_store (parseJson : String → Option JVal)
    (toolName : String) (args : List (String × JVal)) (k s : String) :
    ∀ vars r : JRecord, (args.map Prod.fst).Nodup →
    applyOverrides parseJson toolName vars args = .ok r →
    (k, JVal.str s) ∈ args → looksLikeJson s = true →
    ∃ v, parseJson s = some v ∧ lookupKey r k = some v := by
  induction args with
  | nil =>
    intro vars r _ _ hmem _
    exact absurd hmem (List.not_mem_nil _)
  | cons hd rest ih =>
    intro vars r hnd h hmem hj
    obtain ⟨k0, v0⟩ := hd
    rw [List.map_cons, List.nodup_cons] at hnd
    rw [applyOverrides] at h
    rcases h0 : overrideOneArg parseJson toolName vars k0 v0 with e0 | vars2
    · rw [h0] at h
      exact Except.noConfusion h
    · rw [h0] at h
      rcases List.mem_cons.mp hmem with heq | hmem2
      · injection heq.symm with hk0 hv0
        obtain rfl : k = k0 := hk0.symm
        subst hv0
        rw [overrideOneArg, if_pos hj] at h0
        rcases hp : parseJson s with _ | v
        · rw [hp] at h0
          exact Except.noConfusion h0
        · rw [hp] at h0
          obtain rfl := (Except.ok.inj h0).symm
          refine ⟨v, rfl, ?_⟩
          rw [applyOverrides_ok_lookup_not_mem parseJson toolName rest
            (setKey vars k v) r h k hnd.1,
            lookupKey_setKey, if_pos rfl]
      · exact ih vars2 r hnd.2 h hmem2 hj

/-- On success, a `null` or `undefined` caller value has left the previous
binding of its key untouched (caller keys assumed distinct). -/
theorem applyOverrides_ok_skipped (parseJson : String → Option JVal)
    (toolName : String) (args : List (String × JVal)) (k : String) :
    ∀ vars r : JRecord, (args.map Prod.fst).Nodup →
    applyOverrides parseJson toolName vars args = .ok r →
    ((k, JVal.null) ∈ args ∨ (k, JVal.undef) ∈ args) →
    lookupKey r k = lookupKey vars k := by
  induction args with
  | nil =>
    intro vars r _ _ hmem
    rcases hmem with hmem | hmem <;> exact absurd hmem (List.not_mem_nil _)
  | cons hd rest ih =>
    intro vars r hnd h hmem
    obtain ⟨k0, v0⟩ := hd
    rw [List.map_cons, List.nodup_cons] at hnd
    rw [applyOverrides] at h
    rcases h0 : overrideOneArg parseJson toolName vars k0 v0 with e0 | vars2
    · rw [h0] at h
      exact Except.noConfusion h
    · rw [h0] at h
      have hsame : (k0, v0) = (k, JVal.null) ∨ (k0, v0) = (k, JVal.undef) →
          lookupKey r k = lookupKey vars k := by
        intro hcase
        have hvars2 : vars2 = vars := by
          rcases hcase with heq | heq <;>
          · injection heq with hk0 hv0
            subst hk0
            subst hv0
            rw [overrideOneArg] at h0
            exact (Except.ok.inj h0).symm
        subst hvars2
        have hk : k ∉ rest.map Prod.fst := by
          rcases hcase with heq | heq <;>
          · injection heq with hk0 hv0
            exact hk0 ▸ hnd.1
        exact applyOverrides_ok_lookup_not_mem parseJson toolName rest
          vars2 r h k hk
      rcases hmem with hmem | hmem
      · rcases List.mem_cons.mp hmem with heq | hmem2
        · exact hsame (Or.inl heq.symm)
        · have hkne : k0 ≠ k := by
            intro hh
            have hkmem : k ∈ rest.map Prod.fst :=
              List.mem_map.mpr ⟨(k, JVal.null), hmem2, rfl⟩
            exact hnd.1 (hh ▸ hkmem)
          rw [ih vars2 r hnd.2 h (Or.inl hmem2)]
          exact overrideOneArg_ok_lookup parseJson toolName vars vars2 k0 v0
            h0 k hkne
      · rcases List.mem_cons.mp hmem with heq | hmem2
        · exact hsame (Or.inr heq.symm)
        · have hkne : k0 ≠ k := by
            intro hh
            have hkmem : k ∈ rest.map Prod.fst :=
              List.mem_map.mpr ⟨(k, JVal.undef), hmem2, rfl⟩
            exact hnd.1 (hh ▸ hkmem)
          rw [ih vars2 r hnd.2 h (Or.inr hmem2)]
          exact overrideOneArg_ok_lookup parseJson toolName vars vars2 k0 v0
            h0 k hkne

/-! ## Claim theorems -/

/-- C1 (code bug evidence): on the spec's two contributors the aggregation
is the index-aligned sum `[[0,15],[1,20],[2,45]]` with avg-summary `80/3`;
but at two contributors whose timestamps at index 0 differ (100 vs 200),
`aggregateTimeseriesData` records the LAST contributor's timestamp `200`,
contradicting the claim (and the source's own comment) that the FIRST
available contributor's timestamp is used. -/
theorem claim_C1_aggregateTimeseriesData :
    aggregateTimeseriesData
        [[some (0, some 10), some (1, some 20), some (2, some 30)],
         [some (0, some 5), some (1, none), some (2, some 15)]] =
      [(0, 15), (1, 20), (2, 45)] ∧
    (calculateSummary (liftPoints (aggregateTimeseriesData
        [[some (0, some 10), some (1, some 20), some (2, some 30)],
         [some (0, some 5), some (1, none), some (2, some 15)]])) "avg").avg
      = 80 / 3 ∧
    aggregateTimeseriesData [[some (100, some 10)], [some (200, some 5)]] =
      [(200, 15)] ∧
    (200 : Int) ≠ 100 := by
  refine ⟨?_, ?_, ?_, by decide⟩
  · simp [aggregateTimeseriesData, List.range_succ]
    norm_num
  · norm_num [aggregateTimeseriesData, List.range_succ, liftPoints,
      calculateSummary, summaryValues, listMin, listMax, listSum,
      List.filterMap_cons, List.findIdx_cons, min_def, max_def]
  · simp [aggregateTimeseriesData, List.range_succ]
    norm_num

/-- C4: a serialized text longer than the configured maximum is replaced
by the fixed preamble plus exactly its first `maxResponseLength`
characters, so the output length is `preambleLength + maximum` and never
more; a text within the budget is returned unchanged; and the 200,000
default is restored for a non-numeric or non-positive configured value. -/
theorem claim_C4_truncation (parsedEnv : Option Int) (maxResponseLength : Nat)
    (text : List Char) :
    initializeMaxResponseLength none = 200000 ∧
    (∀ m : Int, parsedEnv = some m → m ≤ 0 →
      initializeMaxResponseLength parsedEnv = 200000) ∧
    (maxResponseLength < text.length →
      truncateSerialized maxResponseLength text =
        MAX_RESPONSE_LENGTH_EXCEEDED_MESSAGE.toList ++
          text.take maxResponseLength ∧
      (truncateSerialized maxResponseLength text).length =
        MAX_RESPONSE_LENGTH_EXCEEDED_MESSAGE.toList.length +
          maxResponseLength) ∧
    (text.length ≤ maxResponseLength →
      truncateSerialized maxResponseLength text = text) := by
  refine ⟨rfl, ?_, ?_, ?_⟩
  · rintro m rfl hm
    simp [initializeMaxResponseLength, hm, DEFAULT_MAX_RESPONSE_LENGTH]
  · intro h
    refine ⟨by simp [truncateSerialized, h], ?_⟩
    simp [truncateSerialized, h, List.length_append, List.length_take,
      Nat.min_eq_left (Nat.le_of_lt h)]
  · intro h
    simp [truncateSerialized, Nat.not_lt.mpr h]

/-- Witness for C4 at concrete inputs. -/
theorem claim_C4_truncation_witness :
    initializeMaxResponseLength (some (-5)) = 200000 ∧
    (truncateSerialized 3 "abcde".toList =
      MAX_RESPONSE_LENGTH_EXCEEDED_MESSAGE.toList ++ "abcde".toList.take 3 ∧
     (truncateSerialized 3 "abcde".toList).length =
      MAX_RESPONSE_LENGTH_EXCEEDED_MESSAGE.toList.length + 3) ∧
    truncateSerialized 9 "abcde".toList = "abcde".toList := by
  obtain ⟨-, h2, h3, -⟩ := claim_C4_truncation (some (-5)) 3 "abcde".toList
  obtain ⟨-, -, -, h4⟩ := claim_C4_truncation (some (-5)) 9 "abcde".toList
  exact ⟨h2 (-5) rfl (by decide), h3 (by decide), h4 (by decide)⟩

/-- C10 counterexample: the claim's universal silent-mean fallback is
false — `AGGREGATION_FUNCTIONS["toString"]` finds the truthy inherited
`Object.prototype.toString`, so the result is the string
`"[object Undefined]"`, not the mean `4`; and `"valueOf"` finds an
inherited member whose call throws a `TypeError` instead of returning
anything. -/
theorem claim_C10_counterexample :
    aggregateValues [MetricValue.num 4] "toString" =
      .str "[object Undefined]" ∧
    AggregateOutcome.str "[object Undefined]" ≠
      .num (listAvg (validNums [MetricValue.num 4])) ∧
    aggregateValues [MetricValue.num 4] "valueOf" = .typeError ∧
    AggregateOutcome.typeError ≠
      .num (listAvg (validNums [MetricValue.num 4])) := by
  exact ⟨rfl, by simp, rfl, by simp⟩

/-- C10 amended: `aggregateValues` first drops null/undefined/NaN entries
(its result only depends on the surviving numbers) and returns 0 when no
value remains — that guard precedes the dispatch, so it applies to every
name; for every name outside sum/avg/max/min that is NOT a property name
of `Object.prototype` it silently falls back to the arithmetic mean; a
name inherited from `Object.prototype` instead reaches the truthy
inherited member: `toString` yields the string `"[object Undefined]"`,
`constructor` yields the input array, and the remaining inherited names
throw a `TypeError`. -/
theorem claim_C10_aggregateValues (values : List MetricValue) (fn : String) :
    (validNums values = [] → aggregateValues values fn = .num 0) ∧
    (fn ∉ ["sum", "avg", "max", "min"] →
      fn ∉ OBJECT_PROTOTYPE_MEMBERS →
      aggregateValues values fn =
        .num (listSum (validNums values) / (validNums values).length)) ∧
    aggregateValues values fn =
      aggregateValues ((validNums values).map MetricValue.num) fn ∧
    (validNums values ≠ [] →
      aggregateValues values "toString" = .str "[object Undefined]" ∧
      aggregateValues values "constructor" =
        .arrayObject (validNums values) ∧
      aggregateValues values "valueOf" = .typeError ∧
      aggregateValues values "hasOwnProperty" = .typeError ∧
      aggregateValues values "__proto__" = .typeError) := by
  refine ⟨?_, ?_, ?_, ?_⟩
  · intro h
    simp [aggregateValues, h]
  · intro hown hproto
    simp only [List.mem_cons, List.mem_singleton, not_or] at hown
    obtain ⟨h1, h2, h3, h4, -⟩ := hown
    have hlook : aggregationFunctionLookup fn = .undefined := by
      have h5 : fn ≠ "toString" := fun hh =>
        hproto (hh ▸ (by decide : "toString" ∈ OBJECT_PROTOTYPE_MEMBERS))
      have h6 : fn ≠ "constructor" := fun hh =>
        hproto (hh ▸ (by decide : "constructor" ∈ OBJECT_PROTOTYPE_MEMBERS))
      simp [aggregationFunctionLookup, h1, h2, h3, h4, h5, h6, hproto]
    by_cases h0 : (validNums values).length = 0
    · have := List.eq_nil_of_length_eq_zero h0
      simp [aggregateValues, h0, this, listSum]
    · simp [aggregateValues, h0, hlook, listAvg]
  · simp [aggregateValues, validNums_map_num]
  · intro hne
    have h0 : ¬ (validNums values).length = 0 := by
      simpa [List.length_eq_zero] using hne
    refine ⟨?_, ?_, ?_, ?_, ?_⟩ <;>
      simp [aggregateValues, h0, aggregationFunctionLookup,
        OBJECT_PROTOTYPE_MEMBERS]

/-- Witness for C10 amended at concrete inputs: the genuinely-unknown name
"median" still falls back to the mean, and the prototype names do not. -/
theorem claim_C10_aggregateValues_witness :
    aggregateValues [MetricValue.null, MetricValue.nan] "median" = .num 0 ∧
    aggregateValues
        [MetricValue.null, MetricValue.num 4, MetricValue.num 6] "median" =
      .num (listSum (validNums [MetricValue.null, MetricValue.num 4,
        MetricValue.num 6]) /
        (validNums [MetricValue.null, MetricValue.num 4,
          MetricValue.num 6]).length) ∧
    aggregateValues [MetricValue.num 4, MetricValue.num 6] "constructor" =
      .arrayObject (validNums [MetricValue.num 4, MetricValue.num 6]) := by
  obtain ⟨ha, -, -, -⟩ :=
    claim_C10_aggregateValues [MetricValue.null, MetricValue.nan] "median"
  obtain ⟨-, hb, -, -⟩ :=
    claim_C10_aggregateValues
      [MetricValue.null, MetricValue.num 4, MetricValue.num 6] "median"
  obtain ⟨-, -, -, hc⟩ :=
    claim_C10_aggregateValues [MetricValue.num 4, MetricValue.num 6] "median"
  refine ⟨ha (by decide), hb (by decide) (by decide), ?_⟩
  exact (hc (by decide)).2.1

/-- C8 counterexample: the claim words the derived per-bucket utilization
as `100 * numerator[i] / max(limit[i], 1)`, but the source computes
`calculateHostUtilization(count || 0, limit || 1)`; at a limit value of
`1/2` the code yields `200` while the claimed formula yields `100`. -/
theorem claim_C8_counterexample :
    hostUtilizationData [some (0, some 1)] [some (0, some (1 / 2))] =
      [(0, 200)] ∧
    specUtilizationPerBucket 1 (1 / 2) = 100 ∧
    (200 : ℚ) ≠ 100 := by
  refine ⟨?_, ?_, by norm_num⟩
  · simp [hostUtilizationData, hostUtilizationBucket, List.range_succ,
      calculateHostUtilization, jsOrNum]
    norm_num
  · rw [specUtilizationPerBucket, max_eq_right (by norm_num : (1:ℚ)/2 ≤ 1)]
    norm_num

/-- C8 amended: `calculateHostUtilization` is division-guarded
(`100 * count / limit` for a positive limit and `0` otherwise, so
`(50,100) ↦ 50` and `(5,0) ↦ 0`); the derived series applies it per bucket
to `count || 0` and `limit || 1` over `min` of the lengths, skipping any
index where either point is absent — which agrees with the spec's
`100 * numerator / max(limit, 1)` whenever the limit is a missing value or
a natural number, though not for fractional limits below 1. -/
theorem claim_C8_hostUtilization (hostCountData hostLimitData : RawSeries)
    (aggregationFn : String) (c l : ℚ) (n : ℕ) :
    calculateHostUtilization 50 100 = 50 ∧
    calculateHostUtilization 5 0 = 0 ∧
    (0 < l → calculateHostUtilization c l = 100 * c / l) ∧
    (l ≤ 0 → calculateHostUtilization c l = 0) ∧
    calculateHostUtilization c (jsOrNum (some (n : ℚ)) 1) =
      specUtilizationPerBucket c (n : ℚ) ∧
    calculateHostUtilization c (jsOrNum none 1) =
      specUtilizationPerBucket c 0 ∧
    (∀ s, calculateHostUtilizationTimeseries hostCountData hostLimitData
        aggregationFn = some s →
      s.data = hostUtilizationData hostCountData hostLimitData ∧
      s.data.length ≤ Nat.min hostCountData.length hostLimitData.length) ∧
    (∀ i, hostCountData.getD i none = none ∨ hostLimitData.getD i none = none →
      hostUtilizationBucket hostCountData hostLimitData i = none) := by
  refine ⟨by norm_num [calculateHostUtilization],
    by norm_num [calculateHostUtilization], ?_, ?_, ?_, ?_, ?_, ?_⟩
  · intro h
    rw [calculateHostUtilization, if_pos h]
    ring
  · intro h
    rw [calculateHostUtilization, if_neg (not_lt.mpr h)]
  · rcases Nat.eq_zero_or_pos n with h | h
    · subst h
      norm_num [jsOrNum, calculateHostUtilization, specUtilizationPerBucket]
      ring
    · have hn : ((n : ℚ)) ≠ 0 := by positivity
      have h1 : (1 : ℚ) ≤ (n : ℚ) := by exact_mod_cast h
      rw [jsOrNum, if_neg hn, calculateHostUtilization,
        if_pos (by positivity : (0:ℚ) < (n:ℚ)), specUtilizationPerBucket,
        max_eq_left h1]
      ring
  · norm_num [jsOrNum, calculateHostUtilization, specUtilizationPerBucket]
    ring
  · intro s hs
    rw [calculateHostUtilizationTimeseries] at hs
    by_cases h : 0 < (hostUtilizationData hostCountData hostLimitData).length
    · rw [if_pos h] at hs
      obtain rfl := Option.some.inj hs
      refine ⟨rfl, ?_⟩
      calc (hostUtilizationData hostCountData hostLimitData).length
          ≤ (List.range (Nat.min hostCountData.length
              hostLimitData.length)).length :=
            List.length_filterMap_le _ _
        _ = Nat.min hostCountData.length hostLimitData.length :=
            List.length_range _
    · rw [if_neg h] at hs
      exact absurd hs (by simp)
  · intro i h
    rcases h with h | h
    · rw [hostUtilizationBucket, h]
    · rw [hostUtilizationBucket, h]
      cases hostCountData.getD i none <;> rfl

/-- Witness for C8 amended at concrete inputs. -/
theorem claim_C8_hostUtilization_witness :
    calculateHostUtilization 50 100 = 50 ∧
    calculateHostUtilization 2 4 = 100 * 2 / 4 ∧
    calculateHostUtilization 2 (-3) = 0 ∧
    (∀ s, calculateHostUtilizationTimeseries [some (0, some 1)]
        [some (0, some 2)] "sum" = some s →
      s.data = hostUtilizationData [some (0, some 1)] [some (0, some 2)] ∧
      s.data.length ≤ Nat.min 1 1) ∧
    hostUtilizationBucket [some (0, some 1)] [(none : Option TimeseriesPoint)]
      0 = none := by
  obtain ⟨h1, -, h3, h4, -, -, h7, h8⟩ :=
    claim_C8_hostUtilization [some (0, some 1)] [some (0, some 2)] "sum" 2 4 3
  obtain ⟨-, -, -, h4b, -, -, -, h8b⟩ :=
    claim_C8_hostUtilization [some (0, some 1)]
      [(none : Option TimeseriesPoint)] "sum" 2 (-3) 3
  exact ⟨h1, h3 (by norm_num), h4b (by norm_num), h7,
    h8b 0 (Or.inr rfl)⟩

/-- C9: every grouping key generator returns the documented literal
fallback (`Unknown` for site type / connection type / region and the
user dimensions, `NONE` for the interface WAN role) whenever the
underlying attribute is absent or null, and the dimension dispatch maps an
unknown dimension to the literal `Unknown`, so grouping always produces a
definite string key. -/
theorem claim_C9_grouping_fallbacks (s : SiteEntry) (i : InterfaceEntry)
    (u : UserEntry) :
    (s.info = none →
      groupKeySiteType s = FALLBACK_VALUES.UNKNOWN ∧
      groupKeyConnType s = FALLBACK_VALUES.UNKNOWN ∧
      groupKeyRegion s = FALLBACK_VALUES.UNKNOWN ∧
      groupKeySite s = s.id) ∧
    (∀ si, s.info = some si → si.type = none →
      groupKeySiteType s = FALLBACK_VALUES.UNKNOWN) ∧
    (∀ si, s.info = some si → si.connType = none →
      groupKeyConnType s = FALLBACK_VALUES.UNKNOWN) ∧
    (∀ si, s.info = some si → si.region = none →
      groupKeyRegion s = FALLBACK_VALUES.UNKNOWN) ∧
    (i.interfaceInfo = none → groupKeyInterfaceRole i = FALLBACK_VALUES.NONE) ∧
    (∀ ii, i.interfaceInfo = some ii → ii.wanRole = none →
      groupKeyInterfaceRole i = FALLBACK_VALUES.NONE) ∧
    (i.name = none → groupKeyInterfaceName i = FALLBACK_VALUES.UNKNOWN) ∧
    (i.socketInfo = none → groupKeySocketHA i = FALLBACK_VALUES.SECONDARY) ∧
    (u.info = none →
      groupKeyOsType u = FALLBACK_VALUES.UNKNOWN ∧
      groupKeyClientVersion u = FALLBACK_VALUES.UNKNOWN ∧
      groupKeyPopName u = FALLBACK_VALUES.UNKNOWN ∧
      groupKeyConnectionStatus u = FALLBACK_VALUES.UNKNOWN) ∧
    siteGroupKeyFor "bogusDimension" s = "Unknown" ∧
    interfaceGroupKeyFor "bogusDimension" i = "Unknown" := by
  refine ⟨?_, ?_, ?_, ?_, ?_, ?_, ?_, ?_, ?_, ?_, ?_⟩
  · intro h
    simp [groupKeySiteType, groupKeyConnType, groupKeyRegion, groupKeySite,
      h, jsOrStr]
  · intro si h1 h2
    simp [groupKeySiteType, h1, h2, jsOrStr]
  · intro si h1 h2
    simp [groupKeyConnType, h1, h2, jsOrStr]
  · intro si h1 h2
    simp [groupKeyRegion, h1, h2, jsOrStr]
  · intro h
    simp [groupKeyInterfaceRole, h, jsOrStr]
  · intro ii h1 h2
    simp [groupKeyInterfaceRole, h1, h2, jsOrStr]
  · intro h
    simp [groupKeyInterfaceName, h, jsOrStr]
  · intro h
    simp [groupKeySocketHA, h, jsTruthy]
  · intro h
    simp [groupKeyOsType, groupKeyClientVersion, groupKeyPopName,
      groupKeyConnectionStatus, h, jsOrStr]
  · simp [siteGroupKeyFor]
  · simp [interfaceGroupKeyFor]

/-- Witness for C9 at concrete attribute-less entities. -/
theorem claim_C9_grouping_fallbacks_witness :
    groupKeySiteType { id := "s1", info := none } = FALLBACK_VALUES.UNKNOWN ∧
    groupKeyInterfaceRole
      { name := none, interfaceInfo := none, socketInfo := none } =
        FALLBACK_VALUES.NONE ∧
    groupKeyInterfaceRole
      { name := some "wan1", interfaceInfo := some { wanRole := none },
        socketInfo := none } = FALLBACK_VALUES.NONE ∧
    groupKeyOsType { id := "u1", name := none, info := none } =
      FALLBACK_VALUES.UNKNOWN ∧
    siteGroupKeyFor "bogusDimension" { id := "s1", info := none } =
      "Unknown" := by
  obtain ⟨h1, -, -, -, h5, h6, -, -, h9, h10, -⟩ :=
    claim_C9_grouping_fallbacks { id := "s1", info := none }
      { name := none, interfaceInfo := none, socketInfo := none }
      { id := "u1", name := none, info := none }
  obtain ⟨-, -, -, -, -, h6b, -, -, -, -, -⟩ :=
    claim_C9_grouping_fallbacks { id := "s1", info := none }
      { name := some "wan1", interfaceInfo := some { wanRole := none },
        socketInfo := none }
      { id := "u1", name := none, info := none }
  exact ⟨(h1 rfl).1, h5 rfl, h6b { wanRole := none } rfl rfl, (h9 rfl).1, h10⟩

/-- C5: the summary computation filters out null/undefined/negative point
values; on an empty or fully-filtered sequence it returns exactly the zero
summary (`min = max = avg = 0`, peak value 0 with `null` timestamp);
otherwise `min`/`max` bound and belong to the surviving values, `avg` is
their arithmetic mean, and the peak is the FIRST point whose value equals
the maximum, its timestamp rendered in ISO-8601 — and on
`[[1000,10],[2000,30],[3000,20]]` the summary is exactly
`\x7bmin:10, max:30, avg:20, peak:\x7bvalue:30,
timestamp:"1970-01-01T00:00:02.000Z"\x7d\x7d`. -/
theorem claim_C5_calculateSummary (dataPoints : List TimeseriesPoint)
    (aggregationFn : String) :
    (summaryValues dataPoints = [] →
      calculateSummary dataPoints aggregationFn = zeroSummary) ∧
    zeroSummary = { min := 0, max := 0, avg := 0,
                    peak := { value := 0, timestamp := none } } ∧
    (summaryValues dataPoints ≠ [] →
      (calculateSummary dataPoints aggregationFn).min ∈
        summaryValues dataPoints ∧
      (∀ v ∈ summaryValues dataPoints,
        (calculateSummary dataPoints aggregationFn).min ≤ v) ∧
      (calculateSummary dataPoints aggregationFn).max ∈
        summaryValues dataPoints ∧
      (∀ v ∈ summaryValues dataPoints,
        v ≤ (calculateSummary dataPoints aggregationFn).max) ∧
      (calculateSummary dataPoints aggregationFn).avg =
        listSum (summaryValues dataPoints) /
          (summaryValues dataPoints).length ∧
      (calculateSummary dataPoints aggregationFn).peak.value =
        (calculateSummary dataPoints aggregationFn).max ∧
      (∃ i pt, dataPoints.get? i = some pt ∧
        pt.2 = some (calculateSummary dataPoints aggregationFn).max ∧
        (∀ j pt2, j < i → dataPoints.get? j = some pt2 →
          pt2.2 ≠ some (calculateSummary dataPoints aggregationFn).max) ∧
        (calculateSummary dataPoints aggregationFn).peak.timestamp =
          some (toISOString pt.1))) ∧
    calculateSummary [(1000, some 10), (2000, some 30), (3000, some 20)]
        aggregationFn =
      { min := 10, max := 30, avg := 20,
        peak := { value := 30,
                  timestamp := some "1970-01-01T00:00:02.000Z" } } := by
  refine ⟨?_, rfl, ?_, ?_⟩
  · intro h
    rcases dataPoints with _ | ⟨p, ps⟩
    · rfl
    · rw [calculateSummary]
      simp [h]
  · intro h
    have hd : dataPoints.isEmpty = false := by
      rcases dataPoints with _ | ⟨p, ps⟩
      · exact absurd rfl h
      · rfl
    have hs : (summaryValues dataPoints).isEmpty = false := by
      rcases hv : summaryValues dataPoints with _ | ⟨v, vs⟩
      · exact absurd hv h
      · rfl
    have hcalc : calculateSummary dataPoints aggregationFn =
        { min := listMin (summaryValues dataPoints),
          max := listMax (summaryValues dataPoints),
          avg := listSum (summaryValues dataPoints) /
            (summaryValues dataPoints).length,
          peak := { value := listMax (summaryValues dataPoints),
                    timestamp :=
                      (dataPoints.get? (dataPoints.findIdx (fun p =>
                        decide (p.2 = some (listMax
                          (summaryValues dataPoints)))))).map
                        (fun p => toISOString p.1) } } := by
      rw [calculateSummary]
      simp only [hd, hs, Bool.false_eq_true, if_false]
    obtain ⟨v, vs, hv⟩ : ∃ v vs, summaryValues dataPoints = v :: vs := by
      rcases hv : summaryValues dataPoints with _ | ⟨v, vs⟩
      · exact absurd hv h
      · exact ⟨v, vs, rfl⟩
    refine ⟨?_, ?_, ?_, ?_, by rw [hcalc], by rw [hcalc], ?_⟩
    · rw [hcalc]
      rw [hv]
      exact listMin_mem v vs
    · rw [hcalc, hv]
      exact listMin_le v vs
    · rw [hcalc, hv]
      exact listMax_mem v vs
    · rw [hcalc, hv]
      exact le_listMax v vs
    · -- the peak: first point whose value equals the maximum
      have hmx_mem : listMax (summaryValues dataPoints) ∈
          summaryValues dataPoints := by
        rw [hv]; exact listMax_mem v vs
      obtain ⟨pt0, hpt0, hpt0v, -⟩ :=
        summaryValues_mem dataPoints _ hmx_mem
      have hex : ∃ x ∈ dataPoints,
          (fun p => decide (p.2 = some (listMax (summaryValues dataPoints))))
            x = true := by
        exact ⟨pt0, hpt0, by simp [hpt0v]⟩
      have hlt := List.findIdx_lt_length_of_exists hex
      refine ⟨dataPoints.findIdx (fun p =>
          decide (p.2 = some (listMax (summaryValues dataPoints)))),
        dataPoints.get ⟨_, hlt⟩, List.get?_eq_get hlt, ?_, ?_, ?_⟩
      · have := @List.findIdx_getElem TimeseriesPoint
          (fun p => decide (p.2 = some (listMax (summaryValues dataPoints))))
          dataPoints hlt
        rw [hcalc]
        simpa using this
      · intro j pt2 hj hj2
        rw [hcalc]
        obtain ⟨hjl, hget⟩ := List.get?_eq_some.mp hj2
        have hfalse := @List.not_of_lt_findIdx TimeseriesPoint
          (fun p => decide (p.2 = some (listMax (summaryValues dataPoints))))
          dataPoints j hj
        simp only [decide_eq_false_iff_not] at hfalse
        rw [← hget]
        simpa [List.get_eq_getElem] using hfalse
      · rw [hcalc]
        rw [List.get?_eq_get hlt]
        rfl
  · norm_num [calculateSummary, summaryValues, listMin, listMax, listSum,
      List.filterMap_cons, List.findIdx_cons, min_def, max_def]
    rfl

/-- Witness for C5: the empty case and the concrete example. -/
theorem claim_C5_calculateSummary_witness :
    calculateSummary [] "avg" = zeroSummary ∧
    (calculateSummary [(1000, some 10), (2000, some 30), (3000, some 20)]
        "avg").min ∈
      summaryValues [(1000, some 10), (2000, some 30), (3000, some 20)] := by
  obtain ⟨he, -, -, -⟩ := claim_C5_calculateSummary [] "avg"
  obtain ⟨-, -, hn, -⟩ := claim_C5_calculateSummary
    [(1000, some 10), (2000, some 30), (3000, some 20)] "avg"
  refine ⟨he rfl, (hn ?_).1⟩
  have hval : summaryValues
      [(1000, some 10), (2000, some 30), (3000, some 20)] = [10, 30, 20] := by
    norm_num [summaryValues, List.filterMap_cons]
  rw [hval]
  simp

/-- C6: Top-N ranking sums the byte pair per entity (missing values as 0),
sorts descending by total (stably; these tools expose no ascending option),
takes the first `topN` (schema-declared bounds `[1,50]`, default 5), and
applies the declared zero-total policy: the users variant excludes
zero-total entities, the sites variant keeps them — with the concrete
entities a(100,50), b(10,5), c(0,0) giving `[a, b]` for exclude-zero with
N=2 and `[a, b, c]` for include-zero with N=3. -/
theorem claim_C6_topN_ranking (topN? : Option Nat) (accountID : String)
    (response : GqlResult) :
    topNSchemaConstraint = { default := 5, minimum := 1, maximum := 50 } ∧
    (∀ f t ct n tc, topSiteHandleResponse topN? accountID response =
        .ranked f t ct n tc →
      tc.Pairwise (fun a b => b.totalBytes ≤ a.totalBytes) ∧
      tc.length ≤ jsOrNat topN? DEFAULT_TOP_N ∧
      (∀ am consumers, accountMetricsOf response = some am →
        am.sites = some consumers →
        ∀ c ∈ tc, ∃ e ∈ consumers, c = rankSiteConsumer e)) ∧
    (∀ f t ct n tc, topUsersHandleResponse topN? accountID response =
        .ranked f t ct n tc →
      tc.Pairwise (fun a b => b.totalBytes ≤ a.totalBytes) ∧
      tc.length ≤ jsOrNat topN? DEFAULT_TOP_N ∧
      (∀ c ∈ tc, 0 < c.totalBytes) ∧
      (∀ am consumers, accountMetricsOf response = some am →
        am.users = some consumers →
        ∀ c ∈ tc, ∃ e ∈ consumers, c = rankUserConsumer e)) ∧
    topUsersHandleResponse (some 2) "acc"
      { data := some [("accountMetrics", some
          { fromTs := some "f", toTs := some "t", sites := none,
            users := some
              [{ id := "a", name := none, infoName := none,
                 metrics := some
                   { bytesUpstream := some 100,
                     bytesDownstream := some 50 } },
               { id := "b", name := none, infoName := none,
                 metrics := some
                   { bytesUpstream := some 10,
                     bytesDownstream := some 5 } },
               { id := "c", name := none, infoName := none,
                 metrics := some
                   { bytesUpstream := some 0,
                     bytesDownstream := some 0 } }] })],
        errors := none } =
      .ranked (some "f") (some "t") "users" 2
        [{ id := "a", name := none, totalBytes := 150 },
         { id := "b", name := none, totalBytes := 15 }] ∧
    topSiteHandleResponse (some 3) "acc"
      { data := some [("accountMetrics", some
          { fromTs := some "f", toTs := some "t", users := none,
            sites := some
              [{ id := "a", name := none, infoName := none,
                 metrics := some
                   { bytesUpstream := some 100,
                     bytesDownstream := some 50 } },
               { id := "b", name := none, infoName := none,
                 metrics := some
                   { bytesUpstream := some 10,
                     bytesDownstream := some 5 } },
               { id := "c", name := none, infoName := none,
                 metrics := some
                   { bytesUpstream := some 0,
                     bytesDownstream := some 0 } }] })],
        errors := none } =
      .ranked (some "f") (some "t") "sites" 3
        [{ id := "a", name := none, totalBytes := 150 },
         { id := "b", name := none, totalBytes := 15 },
         { id := "c", name := none, totalBytes := 0 }] := by
  refine ⟨rfl, ?_, ?_, ?_, ?_⟩
  · intro f t ct n tc htc
    rcases ham : accountMetricsOf response with _ | am
    · rw [topSiteHandleResponse] at htc
      simp [isValidSiteMetricResponse, ham, emptyMetricsResponse] at htc
    · rcases hsites : am.sites with _ | consumers
      · rw [topSiteHandleResponse] at htc
        simp [isValidSiteMetricResponse, ham, hsites,
          emptyMetricsResponse] at htc
      · rw [topSiteHandleResponse] at htc
        simp only [isValidSiteMetricResponse, ham, hsites,
          Option.isSome_some, not_true_eq_false, if_false,
          ite_false] at htc
        obtain ⟨-, -, -, -, rfl⟩ := TopFinal.ranked.inj htc
        obtain ⟨h1, h2, h3⟩ :=
          rankedList_props (consumers.map rankSiteConsumer)
            (jsOrNat topN? DEFAULT_TOP_N)
        refine ⟨h1, h2, ?_⟩
        intro am2 consumers2 ham2 hsites2 c hc
        obtain rfl : am2 = am := (Option.some.inj ham2).symm
        obtain rfl : consumers2 = consumers := by
          rw [hsites] at hsites2; exact (Option.some.inj hsites2).symm
        obtain ⟨e, he, hce⟩ := List.mem_map.mp (h3 c hc)
        exact ⟨e, he, hce.symm⟩
  · intro f t ct n tc htc
    rcases ham : accountMetricsOf response with _ | am
    · rw [topUsersHandleResponse] at htc
      simp [isValidUserMetricResponse, ham, emptyMetricsResponse] at htc
    · rcases husers : am.users with _ | consumers
      · rw [topUsersHandleResponse] at htc
        simp [isValidUserMetricResponse, ham, husers,
          emptyMetricsResponse] at htc
      · rw [topUsersHandleResponse] at htc
        simp only [isValidUserMetricResponse, ham, husers,
          Option.isSome_some, not_true_eq_false, if_false,
          ite_false] at htc
        obtain ⟨-, -, -, -, rfl⟩ := TopFinal.ranked.inj htc
        obtain ⟨h1, h2, h3⟩ :=
          rankedList_props ((consumers.map rankUserConsumer).filter
            (fun c => 0 < c.totalBytes)) (jsOrNat topN? DEFAULT_TOP_N)
        refine ⟨h1, h2, ?_, ?_⟩
        · intro c hc
          have := List.of_mem_filter (h3 c hc)
          simpa using this
        · intro am2 consumers2 ham2 husers2 c hc
          obtain rfl : am2 = am := (Option.some.inj ham2).symm
          obtain rfl : consumers2 = consumers := by
            rw [husers] at husers2; exact (Option.some.inj husers2).symm
          obtain ⟨e, he, hce⟩ :=
            List.mem_map.mp (List.mem_of_mem_filter (h3 c hc))
          exact ⟨e, he, hce.symm⟩
  · norm_num [topUsersHandleResponse, isValidUserMetricResponse,
      accountMetricsOf, List.lookup, rankUserConsumer, calculateBytesTotal,
      jsOrNum, jsOrNat, sortByTotalDesc, insertByTotalDesc, DEFAULT_TOP_N,
      emptyMetricsResponse, List.filter]
  · norm_num [topSiteHandleResponse, isValidSiteMetricResponse,
      accountMetricsOf, List.lookup, rankSiteConsumer, calculateBytesTotal,
      jsOrNum, jsOrNat, sortByTotalDesc, insertByTotalDesc, DEFAULT_TOP_N,
      emptyMetricsResponse]

/-- Witness for C6: the generic ranking facts instantiated on the concrete
users example. -/
theorem claim_C6_topN_ranking_witness :
    ([{ id := "a", name := none, totalBytes := 150 },
      { id := "b", name := none, totalBytes := (15 : ℚ) }] :
        List RankedConsumer).Pairwise
      (fun a b => b.totalBytes ≤ a.totalBytes) ∧
    ([{ id := "a", name := none, totalBytes := 150 },
      { id := "b", name := none, totalBytes := (15 : ℚ) }] :
        List RankedConsumer).length ≤ jsOrNat (some 2) DEFAULT_TOP_N := by
  obtain ⟨-, -, husers, hex, -⟩ := claim_C6_topN_ranking (some 2) "acc"
    { data := some [("accountMetrics", some
        { fromTs := some "f", toTs := some "t", sites := none,
          users := some
            [{ id := "a", name := none, infoName := none,
               metrics := some
                 { bytesUpstream := some 100,
                   bytesDownstream := some 50 } },
             { id := "b", name := none, infoName := none,
               metrics := some
                 { bytesUpstream := some 10,
                   bytesDownstream := some 5 } },
             { id := "c", name := none, infoName := none,
               metrics := some
                 { bytesUpstream := some 0,
                   bytesDownstream := some 0 } }] })],
      errors := none }
  obtain ⟨h1, h2, -, -⟩ := husers _ _ _ _ _ hex
  exact ⟨h1, h2⟩

/-- C2 counterexample: an unusable reply that carries no `errors` array
fails with the JS `TypeError` from `result.errors.map`, not with an
`UpstreamError` carrying the join of the (zero) reported messages, so the
claim's "fails by raising an UpstreamError whose message is the join of all
reported remote error messages" does not hold for every reply. -/
theorem claim_C2_counterexample :
    validateGraphqlResponseBody { data := none, errors := none } =
      .error .typeError ∧
    (Except.error (ε := ValidationFailure) (α := Unit)
        ValidationFailure.typeError ≠
      .error (.upstream
        ("GraphQL errors: " ++ String.intercalate ", " []))) := by
  refine ⟨rfl, ?_⟩
  intro h
  exact ValidationFailure.noConfusion (Except.error.inj h)

/-- C2 amended: validation fails exactly when `data` is absent, empty, or
all-null; when an `errors` list is present the failure is the constructed
`GraphQL errors: ...` message joining all reported messages, while an
unusable reply without an `errors` list fails with a `TypeError`; a reply
with `data.accountMetrics.sites = []` is judged usable and the ranking
transform returns its timeframe echo with an empty, not missing,
consumers collection instead of throwing. -/
theorem claim_C2_validation (r : GqlResult) :
    (validateGraphqlResponseBody r = .ok () ↔
      ∃ fields, r.data = some fields ∧ ∃ p ∈ fields, p.2 ≠ none) ∧
    (∀ es, r.errors = some es → unusableData r = true →
      validateGraphqlResponseBody r =
        .error (.upstream
          ("GraphQL errors: " ++ String.intercalate ", " es))) ∧
    (r.errors = none → unusableData r = true →
      validateGraphqlResponseBody r = .error .typeError) ∧
    validateGraphqlResponseBody
      { data := some [("accountMetrics", none)], errors := some ["boom"] } =
      .error (.upstream "GraphQL errors: boom") ∧
    (validateGraphqlResponseBody
      { data := some [("accountMetrics", some
          { fromTs := some "f", toTs := some "t", sites := some [],
            users := none })],
        errors := none } = .ok () ∧
     topBandwidthHandleResponse none none "acc"
      { data := some [("accountMetrics", some
          { fromTs := some "f", toTs := some "t", sites := some [],
            users := none })],
        errors := none } = .ranked (some "f") (some "t") "sites" 0 []) := by
  refine ⟨?_, ?_, ?_, rfl, rfl, ?_⟩
  · constructor
    · intro h
      by_cases hu : unusableData r = true
      · rw [validateGraphqlResponseBody, if_pos hu] at h
        rcases hes : r.errors with _ | es <;> rw [hes] at h <;>
          exact Except.noConfusion h
      · rcases hdata : r.data with _ | fields
        · rw [unusableData, hdata] at hu
          exact absurd rfl hu
        · refine ⟨fields, rfl, ?_⟩
          rw [unusableData, hdata] at hu
          have := (not_iff_not.mpr List.all_eq_true).mp hu
          push_neg at this
          obtain ⟨p, hp, hpv⟩ := this
          exact ⟨p, hp, by simpa using hpv⟩
    · rintro ⟨fields, hdata, p, hp, hpv⟩
      have hu : unusableData r = false := by
        rw [unusableData, hdata]
        rw [List.all_eq_false]
        exact ⟨p, hp, by simpa using hpv⟩
      rw [validateGraphqlResponseBody, if_neg (by simp [hu])]
  · intro es hes hu
    rw [validateGraphqlResponseBody, if_pos hu, hes]
  · intro hes hu
    rw [validateGraphqlResponseBody, if_pos hu, hes]
  · rfl

/-- Witness for C2 amended at concrete replies. -/
theorem claim_C2_validation_witness :
    validateGraphqlResponseBody
      { data := some [("accountMetrics", none)],
        errors := some ["x", "y"] } =
      .error (.upstream
        ("GraphQL errors: " ++ String.intercalate ", " ["x", "y"])) ∧
    validateGraphqlResponseBody { data := none, errors := none } =
      .error .typeError := by
  obtain ⟨-, h2, -, -, -⟩ := claim_C2_validation
    { data := some [("accountMetrics", none)], errors := some ["x", "y"] }
  obtain ⟨-, -, h3, -, -⟩ := claim_C2_validation { data := none, errors := none }
  exact ⟨h2 ["x", "y"] rfl rfl, h3 rfl rfl⟩

/-- C3: normalization applies every declared schema default first and then
overwrites only with caller entries that are neither `undefined` nor
`null`; with an empty (or absent) caller payload the result is exactly the
declared defaults — whose keys are precisely the schema names declaring a
default — and a caller-supplied `null` (or `undefined`) for a key leaves
the default binding in place. -/
theorem claim_C3_default_merging (parseJson : String → Option JVal)
    (toolName : String) (schema : ArgSchema) (args : List (String × JVal))
    (r : JRecord) (k : String) :
    normalize parseJson schema toolName (some []) =
      .ok (extractToolDefaultValues schema) ∧
    normalize parseJson schema toolName none =
      .ok (extractToolDefaultValues schema) ∧
    ((schema.map Prod.fst).Nodup →
      recordKeys (extractToolDefaultValues schema) =
        (schema.filter (fun p => p.2.isSome)).map Prod.fst) ∧
    ((args.map Prod.fst).Nodup →
      normalize parseJson schema toolName (some args) = .ok r →
      ((k, JVal.null) ∈ args ∨ (k, JVal.undef) ∈ args) →
      lookupKey r k = lookupKey (extractToolDefaultValues schema) k) := by
  refine ⟨rfl, rfl, ?_, ?_⟩
  · intro hnd
    exact recordKeys_extractToolDefaultValues schema hnd
  · intro hnd hok hmem
    exact applyOverrides_ok_skipped parseJson toolName args k
      (extractToolDefaultValues schema) r hnd hok hmem

/-- Witness for C3 on a concrete schema and a caller-supplied `null`. -/
theorem claim_C3_default_merging_witness :
    normalize (fun _ => none)
      [("timeFrame", some (JVal.str "last.P1D")), ("siteIDs", none)]
      "site_metrics" (some []) =
      .ok (extractToolDefaultValues
        [("timeFrame", some (JVal.str "last.P1D")), ("siteIDs", none)]) ∧
    recordKeys (extractToolDefaultValues
      [("timeFrame", some (JVal.str "last.P1D")), ("siteIDs", none)]) =
      (([("timeFrame", some (JVal.str "last.P1D")), ("siteIDs", none)] :
        ArgSchema).filter (fun p => p.2.isSome)).map Prod.fst ∧
    lookupKey
      [("timeFrame", JVal.str "last.P1D")] "timeFrame" =
      lookupKey (extractToolDefaultValues
        [("timeFrame", some (JVal.str "last.P1D")), ("siteIDs", none)])
        "timeFrame" := by
  obtain ⟨h1, -, h3, h4⟩ := claim_C3_default_merging (fun _ => none)
    "site_metrics"
    [("timeFrame", some (JVal.str "last.P1D")), ("siteIDs", none)]
    [("timeFrame", JVal.null)] [("timeFrame", JVal.str "last.P1D")]
    "timeFrame"
  refine ⟨h1, h3 (by decide), ?_⟩
  have := h4 (by decide) rfl (Or.inl (List.mem_cons_self _ _))
  exact this ▸ rfl

/-- C7: for every caller string argument whose trimmed form starts with a
brace or bracket, normalization JSON-parses it before assignment — a
throwing parse fails the whole normalization with an `ArgumentParseError`
carrying the tool name, an offending argument's name and its raw value,
and a successful parse stores the parsed structure in place of the
string. -/
theorem claim_C7_json_string_arguments (parseJson : String → Option JVal)
    (toolName : String) (defaults : JRecord) (args : List (String × JVal))
    (r : JRecord) (k s : String) :
    ((k, JVal.str s) ∈ args → looksLikeJson s = true → parseJson s = none →
      ∃ e, llmProvidedVariablesOverride parseJson defaults toolName
          (some args) = .error e ∧
        e.toolName = toolName ∧ (e.argName, JVal.str e.rawValue) ∈ args ∧
        looksLikeJson e.rawValue = true ∧ parseJson e.rawValue = none) ∧
    ((args.map Prod.fst).Nodup →
      llmProvidedVariablesOverride parseJson defaults toolName (some args) =
        .ok r →
      (k, JVal.str s) ∈ args → looksLikeJson s = true →
      ∃ v, parseJson s = some v ∧ lookupKey r k = some v) := by
  constructor
  · intro hmem hj hp
    obtain ⟨e, he⟩ :=
      applyOverrides_fail parseJson toolName args k s hmem hj hp defaults
    obtain ⟨h1, h2, h3, h4⟩ :=
      applyOverrides_error_char parseJson toolName args defaults e he
    exact ⟨e, he, h1, h2, h3, h4⟩
  · intro hnd hok hmem hj
    exact applyOverrides_ok_store parseJson toolName args k s defaults r
      hnd hok hmem hj

/-- Witness for C7: a failing parse on `"[oops"`-style input and a
successful parse storing the parsed array. -/
theorem claim_C7_json_string_arguments_witness :
    (∃ e, llmProvidedVariablesOverride (fun _ : String => (none : Option JVal)) [] "t"
        (some [("ids", JVal.str "[oops")]) = .error e ∧
      e.toolName = "t" ∧
      (e.argName, JVal.str e.rawValue) ∈ [("ids", JVal.str "[oops")] ∧
      looksLikeJson e.rawValue = true ∧ (fun _ : String => (none : Option JVal)) e.rawValue = none) ∧
    (∃ v, (fun _ => some (JVal.arr [])) "[]" = some v ∧
      lookupKey [("ids", JVal.arr [])] "ids" = some v) := by
  obtain ⟨h1, -⟩ := claim_C7_json_string_arguments
    (fun _ : String => (none : Option JVal)) "t" []
    [("ids", JVal.str "[oops")] [] "ids" "[oops"
  obtain ⟨-, h2⟩ := claim_C7_json_string_arguments
    (fun _ => some (JVal.arr [])) "t" [] [("ids", JVal.str "[]")]
    [("ids", JVal.arr [])] "ids" "[]"
  refine ⟨h1 (List.mem_cons_self _ _) (by decide) rfl, ?_⟩
  exact h2 (by decide) rfl (List.mem_cons_self _ _) (by decide)

end CatoMcp
